import Mathlib

/-!
# TLS transport wrapper of esp-aws-iot: `network_mbedtls_wrapper.c`

A shallow embedding of `iot_tls_connect`, `iot_tls_write` and `iot_tls_read`.

The wrapper is sequential C code that talks to a TLS library, to three timers and
to the file system.  Everything outside the wrapper is a script: the results the
primitives give, in the order in which the wrapper asks for them.  A function of the
wrapper consumes the scripts, threads its local variables through its loop, and
appends every primitive call it makes (arguments and result) to a trace.  When a
script is exhausted while the wrapper still asks, the model has nothing to answer and
the run is `none`.
-/

namespace AwsIotTls

/-! ## Types and constants -/

/-- The enumerators of `IoT_Error_t` that the wrapper names.  The header that declares
the type, `aws_iot_error.h`, is not among the sources; enumerators of different names
are taken to be different values. -/
inductive IoT_Error_t
  | SUCCESS
  | NULL_VALUE_ERROR
  | SSL_CONNECTION_ERROR
  | NETWORK_SSL_WRITE_ERROR
  | NETWORK_SSL_WRITE_TIMEOUT_ERROR
  | NETWORK_SSL_READ_TIMEOUT_ERROR
  | NETWORK_SSL_READ_ERROR
  | NETWORK_MBEDTLS_ERR_CTR_DRBG_ENTROPY_SOURCE_FAILED
  | NETWORK_X509_ROOT_CRT_PARSE_ERROR
  | NETWORK_X509_DEVICE_CRT_PARSE_ERROR
  | NETWORK_PK_PRIVATE_KEY_PARSE_ERROR
  | NETWORK_ERR_NET_SOCKET_FAILED
  | NETWORK_ERR_NET_UNKNOWN_HOST
  | NETWORK_ERR_NET_CONNECT_FAILED
  | NETWORK_SSL_NOTHING_TO_READ
  | NETWORK_PHYSICAL_LAYER_CONNECTED
  deriving DecidableEq, Repr

/-- The numeric constants the wrapper takes from headers that are not part of the
source file: the error codes of the TLS library, its two authentication modes, and
the numeric value of the one `IoT_Error_t` enumerator that the wrapper stores in an
`int` and tests against zero.  The library's error codes are negative, the
enumerator is an error and so not `SUCCESS` (zero). -/
structure Codes where
  MBEDTLS_ERR_SSL_WANT_READ : Int
  MBEDTLS_ERR_SSL_WANT_WRITE : Int
  MBEDTLS_ERR_SSL_TIMEOUT : Int
  MBEDTLS_ERR_NET_SOCKET_FAILED : Int
  MBEDTLS_ERR_NET_UNKNOWN_HOST : Int
  MBEDTLS_SSL_VERIFY_OPTIONAL : Nat
  MBEDTLS_SSL_VERIFY_REQUIRED : Nat
  PK_PRIVATE_KEY_PARSE_ERROR_value : Int
  want_read_neg : MBEDTLS_ERR_SSL_WANT_READ < 0
  want_write_neg : MBEDTLS_ERR_SSL_WANT_WRITE < 0
  timeout_neg : MBEDTLS_ERR_SSL_TIMEOUT < 0
  pk_parse_error_ne_zero : PK_PRIVATE_KEY_PARSE_ERROR_value ≠ 0

/-- The values of the constants in mbedtls (`ssl.h`, `net_sockets.h`) and in
`aws_iot_error.h`. -/
def mbedtls : Codes where
  MBEDTLS_ERR_SSL_WANT_READ := -0x6900
  MBEDTLS_ERR_SSL_WANT_WRITE := -0x6880
  MBEDTLS_ERR_SSL_TIMEOUT := -0x6800
  MBEDTLS_ERR_NET_SOCKET_FAILED := -0x0042
  MBEDTLS_ERR_NET_UNKNOWN_HOST := -0x0052
  MBEDTLS_SSL_VERIFY_OPTIONAL := 1
  MBEDTLS_SSL_VERIFY_REQUIRED := 2
  PK_PRIVATE_KEY_PARSE_ERROR_value := -21
  want_read_neg := by decide
  want_write_neg := by decide
  timeout_neg := by decide
  pk_parse_error_ne_zero := by decide

/-- The macro `IOT_SSL_WRITE_RETRY_TIMEOUT_MS` (default of the `#ifndef`). -/
def IOT_SSL_WRITE_RETRY_TIMEOUT_MS : Nat := 10

/-- The macro `IOT_SSL_READ_RETRY_TIMEOUT_MS` (default of the `#ifndef`). -/
def IOT_SSL_READ_RETRY_TIMEOUT_MS : Nat := 10

/-- One more than the largest `size_t` of the 32-bit target. -/
def SIZE_T_MOD : Nat := 4294967296

/-- A C string: the bytes before the terminating NUL. -/
abbrev CString := List Nat

/-- The C string of an ASCII text. -/
def cstr (s : String) : CString := s.toList.map Char.toNat

/-- The length `strlen(s)`. -/
def strlen (s : CString) : Nat := s.length

/-- The character `s[i]` for `i ≤ strlen s`; the terminator reads as 0. -/
def charAt (s : CString) (i : Nat) : Nat := s.getD i 0

/-- The two certificate objects of `TLSDataParams`. -/
inductive Crt
  | cacert
  | clicert
  deriving DecidableEq, Repr

/-- The three timers: the caller's `timer` and the two locals. -/
inductive TimerId
  | timer
  | writeTimer
  | readTimer
  deriving DecidableEq, Repr

/-- A call of a primitive, with the arguments that matter and, where the wrapper
looks at it, the result. -/
inductive Event
  | ctr_drbg_seed (ret : Int)
  | x509_crt_parse_file (chain : Crt) (path : CString) (ret : Int)
  | x509_crt_parse (chain : Crt) (buf : CString) (buflen : Nat) (ret : Int)
  | tng_get_device_cert_def (ret : Int)
  | atca_mbedtls_cert_add (ret : Int)
  | atca_mbedtls_pk_init (slot_id : Int) (ret : Int)
  | pk_parse_keyfile (path : CString) (ret : Int)
  | pk_parse_key (key : CString) (keylen : Nat) (ret : Int)
  | net_connect (host : CString) (port : Nat) (ret : Int)
  | net_set_block (ret : Int)
  | net_set_nonblock
  | ssl_config_defaults (ret : Int)
  | ssl_conf_authmode (authmode : Nat)
  | ssl_conf_own_cert (ret : Int)
  | ssl_conf_read_timeout (timeout : Nat)
  | ssl_conf_alpn_protocols (ret : Int)
  | ssl_setup (ret : Int)
  | ssl_set_hostname (host : CString) (ret : Int)
  | ssl_handshake (ret : Int)
  | ssl_get_verify_result (flags : Nat)
  | ssl_write (pMsg : Nat) (len : Nat) (ret : Int)
  | ssl_read (read_timeout : Nat) (pMsg : Nat) (len : Nat) (ret : Int)
  | left_ms (ms : Nat)
  | countdown_ms (t : TimerId) (ms : Nat)
  | has_timer_expired (t : TimerId) (expired : Bool)
  deriving DecidableEq, Repr

/-- The fields of `mbedtls_ssl_config` that the wrapper sets through the library's
setters. -/
structure mbedtls_ssl_config where
  authmode : Nat
  read_timeout : Nat
  alpn_list : Option (List String)
  deriving DecidableEq, Repr

/-- The configuration after `mbedtls_ssl_config_init`: zeroed. -/
def mbedtls_ssl_config_init : mbedtls_ssl_config :=
  { authmode := 0, read_timeout := 0, alpn_list := none }

/-- The setter `mbedtls_ssl_conf_read_timeout(conf, timeout)`. -/
def mbedtls_ssl_conf_read_timeout (conf : mbedtls_ssl_config) (timeout : Nat) :
    mbedtls_ssl_config :=
  { conf with read_timeout := timeout }

/-- The setter `mbedtls_ssl_conf_authmode(conf, authmode)`. -/
def mbedtls_ssl_conf_authmode (conf : mbedtls_ssl_config) (authmode : Nat) :
    mbedtls_ssl_config :=
  { conf with authmode := authmode }

/-- The expression `MIN(read_timeout, left_ms(timer))` on the script of readings of
`left_ms(timer)`: its value, the unconsumed script and the readings taken.  The macro
of `<sys/param.h>` (a header of the C library, not among the sources) is
`(((a)<(b))?(a):(b))`, so the call `left_ms(timer)` is evaluated once for the
comparison and once more when it is the value. -/
def MIN_left_ms (read_timeout : Nat) (lefts : List Nat) :
    Option (Nat × List Nat × List Event) :=
  match lefts with
  | [] => none
  | l₁ :: lefts =>
    if read_timeout < l₁ then
      some (read_timeout, lefts, [Event.left_ms l₁])
    else
      match lefts with
      | [] => none
      | l₂ :: lefts => some (l₂, lefts, [Event.left_ms l₁, Event.left_ms l₂])

/-- The expression `MAX(1, MIN(read_timeout, left_ms(timer)))` on the script of
readings of `left_ms(timer)`.  The macro of `<sys/param.h>` is `(((a)>(b))?(a):(b))`,
so the expression `MIN(...)` is evaluated once for the comparison with 1 and once more
when it is the value. -/
def MAX_1_MIN_left_ms (read_timeout : Nat) (lefts : List Nat) :
    Option (Nat × List Nat × List Event) :=
  match MIN_left_ms read_timeout lefts with
  | none => none
  | some (v, lefts, evs) =>
    if 1 > v then
      some (1, lefts, evs)
    else
      match MIN_left_ms read_timeout lefts with
      | none => none
      | some (v', lefts, evs') => some (v', lefts, evs ++ evs')

/-! ## `iot_tls_write` -/

/-- The variables of `iot_tls_write` at the head of its loop, the unconsumed scripts
of `mbedtls_ssl_write` and of `has_timer_expired(&writeTimer)`, and the trace so far.
`pMsg` is the distance of the pointer from the start of the caller's buffer. -/
structure WriteState where
  pMsg : Nat
  len : Nat
  txLen : Nat
  sends : List Int
  expiries : List Bool
  trace : List Event
  deriving DecidableEq, Repr

/-- What a call of `iot_tls_write` leaves: the returned error, the value stored
through `written_len` (`none`: nothing was stored, the caller's variable keeps its
content), the unconsumed scripts and the trace. -/
structure WriteResult where
  ret : IoT_Error_t
  written_len : Option Nat
  sends : List Int
  expiries : List Bool
  trace : List Event
  deriving DecidableEq, Repr

/-- The outcome of one pass through a loop body. -/
inductive Step (σ ρ : Type)
  | next (s : σ)
  | done (r : ρ)
  | stuck
  deriving DecidableEq, Repr

/-- A `return` of `iot_tls_write` in state `s`. -/
def WriteState.returns (s : WriteState) (ret : IoT_Error_t) (written_len : Option Nat) :
    WriteResult :=
  { ret := ret, written_len := written_len, sends := s.sends, expiries := s.expiries,
    trace := s.trace }

/-- The body of `while(len > 0U)` in `iot_tls_write`. -/
def write_body (E : Codes) (s : WriteState) : Step WriteState WriteResult :=
  match s.sends with
  | [] => .stuck
  | ret :: sends =>
    let s := { s with sends := sends, trace := s.trace ++ [Event.ssl_write s.pMsg s.len ret] }
    if ret > 0 then
      if ret.toNat > s.len then
        .done (s.returns .NETWORK_SSL_WRITE_ERROR none)
      else
        .next { s with
          trace := s.trace ++ [Event.countdown_ms TimerId.writeTimer IOT_SSL_WRITE_RETRY_TIMEOUT_MS]
          txLen := (s.txLen + ret.toNat) % SIZE_T_MOD
          pMsg := s.pMsg + ret.toNat
          len := s.len - ret.toNat }
    else if ret = E.MBEDTLS_ERR_SSL_WANT_READ ∨ ret = E.MBEDTLS_ERR_SSL_WANT_WRITE then
      match s.expiries with
      | [] => .stuck
      | expired :: expiries =>
        let s := { s with expiries := expiries,
                          trace := s.trace ++ [Event.has_timer_expired TimerId.writeTimer expired] }
        if expired then
          .done (s.returns .NETWORK_SSL_WRITE_TIMEOUT_ERROR (some s.txLen))
        else
          .next s
    else
      .done (s.returns .NETWORK_SSL_WRITE_ERROR none)

/-- The loop of `iot_tls_write`, for at most `fuel` tests of its condition. -/
def write_loop (E : Codes) : Nat → WriteState → Option WriteResult
  | 0, _ => none
  | fuel + 1, s =>
    if s.len > 0 then
      match write_body E s with
      | .next s => write_loop E fuel s
      | .done r => some r
      | .stuck => none
    else
      some (s.returns .SUCCESS (some s.txLen))

/-- The state of `iot_tls_write` when it reaches its loop. -/
def write_init (len : Nat) (sends : List Int) (expiries : List Bool) : WriteState :=
  { pMsg := 0, len := len, txLen := 0, sends := sends, expiries := expiries,
    trace := [Event.countdown_ms TimerId.writeTimer IOT_SSL_WRITE_RETRY_TIMEOUT_MS] }

/-- The function `iot_tls_write(pNetwork, pMsg, len, timer, written_len)`.  Every pass through the
loop body calls `mbedtls_ssl_write` once, so the loop gets one test of its condition
more than the script has results. -/
def iot_tls_write (E : Codes) (len : Nat) (sends : List Int) (expiries : List Bool) :
    Option WriteResult :=
  write_loop E (sends.length + 1) (write_init len sends expiries)

/-- The loop states of `iot_tls_write` that a run from `s₀` passes through. -/
inductive WriteReach (E : Codes) (s₀ : WriteState) : WriteState → Prop
  | start : WriteReach E s₀ s₀
  | step {s s' : WriteState} : WriteReach E s₀ s → 0 < s.len → write_body E s = .next s' →
      WriteReach E s₀ s'

/-! ## `iot_tls_read` -/

/-- The variables of `iot_tls_read` at the head of its loop (`read_timeout` is the
local that holds the configuration's deadline of entry), the configuration, the
unconsumed scripts of `mbedtls_ssl_read`, of `left_ms(timer)` and of
`has_timer_expired(&readTimer)`, and the trace so far. -/
structure ReadState where
  pMsg : Nat
  len : Nat
  rxLen : Nat
  read_timeout : Nat
  conf : mbedtls_ssl_config
  recvs : List Int
  lefts : List Nat
  expiries : List Bool
  trace : List Event
  deriving DecidableEq, Repr

/-- What a call of `iot_tls_read` leaves. -/
structure ReadResult where
  ret : IoT_Error_t
  read_len : Option Nat
  conf : mbedtls_ssl_config
  recvs : List Int
  lefts : List Nat
  expiries : List Bool
  trace : List Event
  deriving DecidableEq, Repr

/-- A `return` of `iot_tls_read` in state `s`. -/
def ReadState.returns (s : ReadState) (ret : IoT_Error_t) (read_len : Option Nat) :
    ReadResult :=
  { ret := ret, read_len := read_len, conf := s.conf, recvs := s.recvs, lefts := s.lefts,
    expiries := s.expiries, trace := s.trace }

/-- The body of `while(len > 0U)` in `iot_tls_read`. -/
def read_body (E : Codes) (s : ReadState) : Step ReadState ReadResult :=
  match MAX_1_MIN_left_ms s.read_timeout s.lefts with
  | none => .stuck
  | some (timeout, lefts, evs) =>
  match s.recvs with
  | [] => .stuck
  | ret :: recvs =>
    let conf := mbedtls_ssl_conf_read_timeout s.conf timeout
    let conf' := mbedtls_ssl_conf_read_timeout conf s.read_timeout
    let s := { s with
      lefts := lefts, recvs := recvs, conf := conf'
      trace := s.trace ++ evs ++ [Event.ssl_conf_read_timeout conf.read_timeout,
        Event.ssl_read conf.read_timeout s.pMsg s.len ret,
        Event.ssl_conf_read_timeout conf'.read_timeout] }
    if ret > 0 then
      if ret.toNat > s.len then
        .done (s.returns .NETWORK_SSL_WRITE_ERROR none)
      else
        .next { s with
          trace := s.trace ++ [Event.countdown_ms TimerId.readTimer IOT_SSL_READ_RETRY_TIMEOUT_MS]
          rxLen := (s.rxLen + ret.toNat) % SIZE_T_MOD
          pMsg := s.pMsg + ret.toNat
          len := s.len - ret.toNat }
    else if ret = E.MBEDTLS_ERR_SSL_WANT_READ ∨ ret = E.MBEDTLS_ERR_SSL_WANT_WRITE ∨
        ret = E.MBEDTLS_ERR_SSL_TIMEOUT then
      match s.expiries with
      | [] => .stuck
      | expired :: expiries =>
        let s := { s with expiries := expiries,
                          trace := s.trace ++ [Event.has_timer_expired TimerId.readTimer expired] }
        if expired then
          if s.rxLen = 0 then
            .done (s.returns .NETWORK_SSL_NOTHING_TO_READ (some s.rxLen))
          else
            .done (s.returns .NETWORK_SSL_READ_TIMEOUT_ERROR (some s.rxLen))
        else
          .next s
    else
      .done (s.returns .NETWORK_SSL_READ_ERROR none)

/-- The loop of `iot_tls_read`, for at most `fuel` tests of its condition. -/
def read_loop (E : Codes) : Nat → ReadState → Option ReadResult
  | 0, _ => none
  | fuel + 1, s =>
    if s.len > 0 then
      match read_body E s with
      | .next s => read_loop E fuel s
      | .done r => some r
      | .stuck => none
    else
      some (s.returns .SUCCESS (some s.rxLen))

/-- The state of `iot_tls_read` when it reaches its loop. -/
def read_init (conf : mbedtls_ssl_config) (len : Nat) (recvs : List Int) (lefts : List Nat)
    (expiries : List Bool) : ReadState :=
  { pMsg := 0, len := len, rxLen := 0, read_timeout := conf.read_timeout, conf := conf,
    recvs := recvs, lefts := lefts, expiries := expiries,
    trace := [Event.countdown_ms TimerId.readTimer IOT_SSL_READ_RETRY_TIMEOUT_MS] }

/-- The function `iot_tls_read(pNetwork, pMsg, len, timer, read_len)` on a session whose
configuration is `conf`. -/
def iot_tls_read (E : Codes) (conf : mbedtls_ssl_config) (len : Nat) (recvs : List Int)
    (lefts : List Nat) (expiries : List Bool) : Option ReadResult :=
  read_loop E (recvs.length + 1) (read_init conf len recvs lefts expiries)

/-- The loop states of `iot_tls_read` that a run from `s₀` passes through. -/
inductive ReadReach (E : Codes) (s₀ : ReadState) : ReadState → Prop
  | start : ReadReach E s₀ s₀
  | step {s s' : ReadState} : ReadReach E s₀ s → 0 < s.len → read_body E s = .next s' →
      ReadReach E s₀ s'

/-! ## `iot_tls_connect` -/

/-- The connection parameters, `TLSConnectParams`. -/
structure TLSConnectParams where
  pRootCALocation : CString
  pDeviceCertLocation : CString
  pDevicePrivateKeyLocation : CString
  pDestinationURL : CString
  DestinationPort : Nat
  timeout_ms : Nat
  ServerVerificationFlag : Bool
  deriving DecidableEq, Repr

/-- The parts of `TLSDataParams` that the wrapper reads or writes itself: the
verification flags and the configuration. -/
structure TLSDataParams where
  flags : Nat
  conf : mbedtls_ssl_config
  deriving DecidableEq, Repr

/-- The transport object, `Network`. -/
structure Network where
  tlsConnectParams : TLSConnectParams
  tlsDataParams : TLSDataParams
  deriving DecidableEq, Repr

/-- The build options that the wrapper tests with `#ifdef`. -/
structure Kconfig where
  CONFIG_AWS_IOT_USE_HARDWARE_SECURE_ELEMENT : Bool
  CONFIG_MBEDTLS_SSL_ALPN : Bool
  CONFIG_AWS_IOT_SSL_SOCKET_NON_BLOCKING : Bool
  deriving DecidableEq, Repr

/-- The answers of the primitives that `iot_tls_connect` calls: one value for a
primitive called at most once with fixed arguments, a function of the arguments
otherwise, and a script for the handshake step, which is called in a loop. -/
structure Library where
  ctr_drbg_seed : Int
  x509_crt_parse_file : Crt → CString → Int
  x509_crt_parse : Crt → CString → Nat → Int
  tng_get_device_cert_def : Int
  atca_mbedtls_cert_add : Int
  atca_mbedtls_pk_init : Int → Int
  pk_parse_keyfile : CString → Int
  pk_parse_key : CString → Nat → Int
  net_connect : CString → Nat → Int
  net_set_block : Int
  ssl_config_defaults : Int
  ssl_conf_own_cert : Int
  ssl_conf_alpn_protocols : Int
  ssl_setup : Int
  ssl_set_hostname : CString → Int
  ssl_handshake : List Int
  ssl_get_verify_result : Nat

/-- What a call of `iot_tls_connect` leaves: the returned error, the transport object
(`none` for a NULL `pNetwork`) and the trace. -/
structure ConnectResult where
  ret : IoT_Error_t
  pNetwork : Option Network
  trace : List Event
  deriving DecidableEq, Repr

/-- The helper `_iot_tls_set_connect_params`. -/
def _iot_tls_set_connect_params (pNetwork : Network) (pRootCALocation pDeviceCertLocation
    pDevicePrivateKeyLocation pDestinationURL : CString) (destinationPort timeout_ms : Nat)
    (ServerVerificationFlag : Bool) : Network :=
  { pNetwork with tlsConnectParams :=
      { DestinationPort := destinationPort
        pDestinationURL := pDestinationURL
        pDeviceCertLocation := pDeviceCertLocation
        pDevicePrivateKeyLocation := pDevicePrivateKeyLocation
        pRootCALocation := pRootCALocation
        timeout_ms := timeout_ms
        ServerVerificationFlag := ServerVerificationFlag } }

/-- The conversion of an `int` to `int8_t`. -/
def toInt8 (x : Int) : Int := (x + 128) % 256 - 128

/-- The step "Load root CA" of `iot_tls_connect`: the value of `ret` and the calls made. -/
def load_root_ca (L : Library) (pRootCALocation : CString) : Int × List Event :=
  if charAt pRootCALocation 0 = Char.toNat '/' then
    let ret := L.x509_crt_parse_file .cacert pRootCALocation
    (ret, [Event.x509_crt_parse_file .cacert pRootCALocation ret])
  else
    let ret := L.x509_crt_parse .cacert pRootCALocation (strlen pRootCALocation + 1)
    (ret, [Event.x509_crt_parse .cacert pRootCALocation (strlen pRootCALocation + 1) ret])

/-- The step "Load client certificate" of `iot_tls_connect`. -/
def load_client_cert (K : Kconfig) (L : Library) (pDeviceCertLocation : CString) :
    Int × List Event :=
  if K.CONFIG_AWS_IOT_USE_HARDWARE_SECURE_ELEMENT = true ∧
      charAt pDeviceCertLocation 0 = Char.toNat '#' then
    let ret := L.tng_get_device_cert_def
    if ret = 0 then
      let ret' := L.atca_mbedtls_cert_add
      (ret', [Event.tng_get_device_cert_def ret, Event.atca_mbedtls_cert_add ret'])
    else
      (ret, [Event.tng_get_device_cert_def ret])
  else if charAt pDeviceCertLocation 0 = Char.toNat '/' then
    let ret := L.x509_crt_parse_file .clicert pDeviceCertLocation
    (ret, [Event.x509_crt_parse_file .clicert pDeviceCertLocation ret])
  else
    let ret := L.x509_crt_parse .clicert pDeviceCertLocation (strlen pDeviceCertLocation + 1)
    (ret, [Event.x509_crt_parse .clicert pDeviceCertLocation
      (strlen pDeviceCertLocation + 1) ret])

/-- The step "Parse client private key" of `iot_tls_connect`. -/
def parse_private_key (K : Kconfig) (E : Codes) (L : Library)
    (pDevicePrivateKeyLocation : CString) : Int × List Event :=
  if K.CONFIG_AWS_IOT_USE_HARDWARE_SECURE_ELEMENT = true ∧
      charAt pDevicePrivateKeyLocation 0 = Char.toNat '#' then
    let slot_id := toInt8 ((charAt pDevicePrivateKeyLocation 1 : Int) - (Char.toNat '0' : Int))
    if slot_id < 0 ∨ slot_id > 9 then
      (E.PK_PRIVATE_KEY_PARSE_ERROR_value, [])
    else
      let ret := L.atca_mbedtls_pk_init slot_id
      (ret, [Event.atca_mbedtls_pk_init slot_id ret])
  else if charAt pDevicePrivateKeyLocation 0 = Char.toNat '/' then
    let ret := L.pk_parse_keyfile pDevicePrivateKeyLocation
    (ret, [Event.pk_parse_keyfile pDevicePrivateKeyLocation ret])
  else
    let ret := L.pk_parse_key pDevicePrivateKeyLocation (strlen pDevicePrivateKeyLocation + 1)
    (ret, [Event.pk_parse_key pDevicePrivateKeyLocation
      (strlen pDevicePrivateKeyLocation + 1) ret])

/-- The handshake loop of `iot_tls_connect` on the script of `mbedtls_ssl_handshake`:
whether the handshake completed, and the trace. -/
def handshake_loop (E : Codes) : List Int → List Event → Option (Bool × List Event)
  | [], _ => none
  | ret :: rest, tr =>
    if ret ≠ 0 then
      if ret ≠ E.MBEDTLS_ERR_SSL_WANT_READ ∧ ret ≠ E.MBEDTLS_ERR_SSL_WANT_WRITE then
        some (false, tr ++ [Event.ssl_handshake ret])
      else
        handshake_loop E rest (tr ++ [Event.ssl_handshake ret])
    else
      some (true, tr ++ [Event.ssl_handshake ret])

/-- The part of `iot_tls_connect` after the handshake loop. -/
def connect_verify (K : Kconfig) (L : Library) (pNetwork : Network) (tr : List Event) :
    ConnectResult :=
  let last := if K.CONFIG_AWS_IOT_SSL_SOCKET_NON_BLOCKING = true
    then [Event.net_set_nonblock] else []
  if pNetwork.tlsConnectParams.ServerVerificationFlag = true then
    let flags := L.ssl_get_verify_result
    let pNetwork := { pNetwork with tlsDataParams := { pNetwork.tlsDataParams with flags := flags } }
    let tr := tr ++ [Event.ssl_get_verify_result flags]
    if flags ≠ 0 then
      { ret := .SSL_CONNECTION_ERROR, pNetwork := some pNetwork, trace := tr ++ last }
    else
      { ret := .SUCCESS, pNetwork := some pNetwork, trace := tr ++ last }
  else
    { ret := .SUCCESS, pNetwork := some pNetwork, trace := tr ++ last }

/-- A `return` of `iot_tls_connect` with an error. -/
def connect_fail (e : IoT_Error_t) (pNetwork : Network) (tr : List Event) :
    Option ConnectResult :=
  some { ret := e, pNetwork := some pNetwork, trace := tr }

/-- The part of `iot_tls_connect` from the handshake loop on. -/
def connect_handshake (K : Kconfig) (E : Codes) (L : Library) (pNetwork : Network)
    (tr : List Event) : Option ConnectResult :=
  match handshake_loop E L.ssl_handshake tr with
  | none => none
  | some (false, tr) => connect_fail .SSL_CONNECTION_ERROR pNetwork tr
  | some (true, tr) => some (connect_verify K L pNetwork tr)

/-- The part of `iot_tls_connect` from `mbedtls_ssl_setup` on: the set-up of the
session and the host name. -/
def connect_ssl_setup (K : Kconfig) (E : Codes) (L : Library) (pNetwork : Network)
    (tr : List Event) : Option ConnectResult :=
  let P := pNetwork.tlsConnectParams
  let tr := tr ++ [Event.ssl_setup L.ssl_setup]
  if L.ssl_setup ≠ 0 then connect_fail .SSL_CONNECTION_ERROR pNetwork tr else
  let ret := L.ssl_set_hostname P.pDestinationURL
  let tr := tr ++ [Event.ssl_set_hostname P.pDestinationURL ret]
  if ret ≠ 0 then connect_fail .SSL_CONNECTION_ERROR pNetwork tr else
  connect_handshake K E L pNetwork tr

/-- The part of `iot_tls_connect` from `mbedtls_ssl_conf_read_timeout` on: the read
deadline and, in a build with ALPN, the protocol for port 443. -/
def connect_setup (K : Kconfig) (E : Codes) (L : Library) (pNetwork : Network)
    (tr : List Event) : Option ConnectResult :=
  let P := pNetwork.tlsConnectParams
  let conf := mbedtls_ssl_conf_read_timeout pNetwork.tlsDataParams.conf P.timeout_ms
  let pNetwork := { pNetwork with tlsDataParams := { pNetwork.tlsDataParams with
    conf := conf } }
  let tr := tr ++ [Event.ssl_conf_read_timeout P.timeout_ms]
  if K.CONFIG_MBEDTLS_SSL_ALPN = true ∧ P.DestinationPort = 443 then
    let tr := tr ++ [Event.ssl_conf_alpn_protocols L.ssl_conf_alpn_protocols]
    if L.ssl_conf_alpn_protocols ≠ 0 then connect_fail .SSL_CONNECTION_ERROR pNetwork tr else
    connect_ssl_setup K E L { pNetwork with tlsDataParams := { pNetwork.tlsDataParams with
      conf := { conf with alpn_list := some ["x-amzn-mqtt-ca"] } } } tr
  else
    connect_ssl_setup K E L pNetwork tr

/-- The part of `iot_tls_connect` from "Setting up the SSL/TLS structure" on: the
defaults of the configuration, the authentication mode, the own certificate. -/
def connect_configure (K : Kconfig) (E : Codes) (L : Library) (pNetwork : Network)
    (tr : List Event) : Option ConnectResult :=
  let tr := tr ++ [Event.ssl_config_defaults L.ssl_config_defaults]
  if L.ssl_config_defaults ≠ 0 then connect_fail .SSL_CONNECTION_ERROR pNetwork tr else
  let authmode := if pNetwork.tlsConnectParams.ServerVerificationFlag = true
    then E.MBEDTLS_SSL_VERIFY_REQUIRED else E.MBEDTLS_SSL_VERIFY_OPTIONAL
  let pNetwork := { pNetwork with tlsDataParams := { pNetwork.tlsDataParams with
    conf := mbedtls_ssl_conf_authmode pNetwork.tlsDataParams.conf authmode } }
  let tr := tr ++ [Event.ssl_conf_authmode authmode, Event.ssl_conf_own_cert L.ssl_conf_own_cert]
  if L.ssl_conf_own_cert ≠ 0 then connect_fail .SSL_CONNECTION_ERROR pNetwork tr else
  connect_setup K E L pNetwork tr

/-- The part of `iot_tls_connect` from the opening of the socket on. -/
def connect_session (K : Kconfig) (E : Codes) (L : Library) (pNetwork : Network)
    (tr : List Event) : Option ConnectResult :=
  let P := pNetwork.tlsConnectParams
  let ret := L.net_connect P.pDestinationURL P.DestinationPort
  let tr := tr ++ [Event.net_connect P.pDestinationURL P.DestinationPort ret]
  if ret ≠ 0 then
    if ret = E.MBEDTLS_ERR_NET_SOCKET_FAILED then
      connect_fail .NETWORK_ERR_NET_SOCKET_FAILED pNetwork tr
    else if ret = E.MBEDTLS_ERR_NET_UNKNOWN_HOST then
      connect_fail .NETWORK_ERR_NET_UNKNOWN_HOST pNetwork tr
    else connect_fail .NETWORK_ERR_NET_CONNECT_FAILED pNetwork tr
  else
  let tr := tr ++ [Event.net_set_block L.net_set_block]
  if L.net_set_block ≠ 0 then connect_fail .SSL_CONNECTION_ERROR pNetwork tr else
  connect_configure K E L pNetwork tr

/-- The function `iot_tls_connect(pNetwork, params)`. -/
def iot_tls_connect (K : Kconfig) (E : Codes) (L : Library) (pNetwork : Option Network)
    (params : Option TLSConnectParams) : Option ConnectResult :=
  match pNetwork with
  | none => some { ret := .NULL_VALUE_ERROR, pNetwork := none, trace := [] }
  | some pNetwork =>
    let pNetwork := match params with
      | none => pNetwork
      | some params => _iot_tls_set_connect_params pNetwork params.pRootCALocation
          params.pDeviceCertLocation params.pDevicePrivateKeyLocation params.pDestinationURL
          params.DestinationPort params.timeout_ms params.ServerVerificationFlag
    let P := pNetwork.tlsConnectParams
    let pNetwork := { pNetwork with
      tlsDataParams := { pNetwork.tlsDataParams with conf := mbedtls_ssl_config_init } }
    let tr := [Event.ctr_drbg_seed L.ctr_drbg_seed]
    if L.ctr_drbg_seed ≠ 0 then
      connect_fail .NETWORK_MBEDTLS_ERR_CTR_DRBG_ENTROPY_SOURCE_FAILED pNetwork tr
    else
    let root := load_root_ca L P.pRootCALocation
    let tr := tr ++ root.2
    if root.1 < 0 then connect_fail .NETWORK_X509_ROOT_CRT_PARSE_ERROR pNetwork tr else
    let cert := load_client_cert K L P.pDeviceCertLocation
    let tr := tr ++ cert.2
    if cert.1 ≠ 0 then connect_fail .NETWORK_X509_DEVICE_CRT_PARSE_ERROR pNetwork tr else
    let key := parse_private_key K E L P.pDevicePrivateKeyLocation
    let tr := tr ++ key.2
    if key.1 ≠ 0 then connect_fail .NETWORK_PK_PRIVATE_KEY_PARSE_ERROR pNetwork tr else
    connect_session K E L pNetwork tr

/-! ## Observers of a trace and invariants -/

/-- The number of bytes one event transfers: the result of `mbedtls_ssl_write` or
`mbedtls_ssl_read` when it is a positive count, 0 for everything else. -/
def Event.bytes : Event → Nat
  | .ssl_write _ _ ret => if ret > 0 then ret.toNat else 0
  | .ssl_read _ _ _ ret => if ret > 0 then ret.toNat else 0
  | _ => 0

/-- The sum of the positive counts that a trace's send and receive attempts gave. -/
def transferred (tr : List Event) : Nat := (tr.map Event.bytes).sum

/-- Every send attempt of the trace was offered the part of a `len`-byte buffer that
the attempts before it had not taken. -/
def OffersUnsent (len : Nat) (tr : List Event) : Prop :=
  ∀ pre pMsg l ret post, tr = pre ++ Event.ssl_write pMsg l ret :: post →
    pMsg = transferred pre ∧ pMsg + l = len

/-- The invariant of the loop of `iot_tls_write` for a call with length `len₀`. -/
structure WriteInv (len₀ : Nat) (s : WriteState) : Prop where
  sum : s.txLen + s.len = len₀
  ptr : s.pMsg = s.txLen
  count : transferred s.trace = s.txLen
  offers : OffersUnsent len₀ s.trace

/-- The three ways in which `iot_tls_write` returns, with what it has stored and done
by then. -/
inductive WriteOutcome (len₀ : Nat) (r : WriteResult) : Prop
  | success : r.ret = .SUCCESS → r.written_len = some len₀ → transferred r.trace = len₀ →
      OffersUnsent len₀ r.trace → WriteOutcome len₀ r
  | timeout : r.ret = .NETWORK_SSL_WRITE_TIMEOUT_ERROR →
      r.written_len = some (transferred r.trace) → transferred r.trace < len₀ →
      OffersUnsent len₀ r.trace → WriteOutcome len₀ r
  | error : r.ret = .NETWORK_SSL_WRITE_ERROR → r.written_len = none → WriteOutcome len₀ r

/-- The trace after the receive attempt of one pass through the body of the loop of
`iot_tls_read`, in which the readings `evs` of `left_ms(timer)` gave the deadline
`timeout`. -/
def read_attempt_trace (s : ReadState) (evs : List Event) (timeout : Nat) (ret : Int) :
    List Event :=
  s.trace ++ evs ++ [Event.ssl_conf_read_timeout timeout,
    Event.ssl_read timeout s.pMsg s.len ret,
    Event.ssl_conf_read_timeout s.read_timeout]

/-- Every receive attempt of the trace ran under the deadline installed right before
it, and was followed at once by the installation of `d` again. -/
def ReadCalls (d : Nat) (tr : List Event) : Prop :=
  ∀ pre t pMsg l ret post, tr = pre ++ Event.ssl_read t pMsg l ret :: post →
    ∃ pre' post', pre = pre' ++ [Event.ssl_conf_read_timeout t] ∧
      post = Event.ssl_conf_read_timeout d :: post'

/-- The counting invariant of the loop of `iot_tls_read` for a call with length
`len₀`. -/
structure ReadInv (len₀ : Nat) (s : ReadState) : Prop where
  sum : s.rxLen + s.len = len₀
  count : transferred s.trace = s.rxLen

/-- The configuration invariant of the loop of `iot_tls_read` on a session whose
configuration is `conf₀` at entry. -/
structure ReadConfInv (conf₀ : mbedtls_ssl_config) (s : ReadState) : Prop where
  conf : s.conf = conf₀
  saved : s.read_timeout = conf₀.read_timeout
  calls : ReadCalls conf₀.read_timeout s.trace

/-- The five ways in which `iot_tls_read` returns, with what it has stored by then. -/
inductive ReadOutcome (len₀ : Nat) (r : ReadResult) : Prop
  | success : r.ret = .SUCCESS → r.read_len = some len₀ → transferred r.trace = len₀ →
      ReadOutcome len₀ r
  | nothing : r.ret = .NETWORK_SSL_NOTHING_TO_READ → r.read_len = some 0 →
      transferred r.trace = 0 → ReadOutcome len₀ r
  | timeout : r.ret = .NETWORK_SSL_READ_TIMEOUT_ERROR →
      r.read_len = some (transferred r.trace) → 0 < transferred r.trace →
      transferred r.trace < len₀ → ReadOutcome len₀ r
  | error : r.ret = .NETWORK_SSL_READ_ERROR → r.read_len = none → ReadOutcome len₀ r
  | overrun : r.ret = .NETWORK_SSL_WRITE_ERROR → r.read_len = none → ReadOutcome len₀ r

/-- The transport object as `iot_tls_connect` has it when it starts to seed the random
generator: with the parameters of the call, if there are any, and a fresh
configuration. -/
def connect_entry (pNetwork : Network) (params : Option TLSConnectParams) : Network :=
  { tlsConnectParams := match params with
      | none => pNetwork.tlsConnectParams
      | some params => params
    tlsDataParams := { pNetwork.tlsDataParams with conf := mbedtls_ssl_config_init } }

/-- The calls that load a credential. -/
def Event.isCredential : Event → Bool
  | .x509_crt_parse_file _ _ _ => true
  | .x509_crt_parse _ _ _ _ => true
  | .tng_get_device_cert_def _ => true
  | .atca_mbedtls_cert_add _ => true
  | .atca_mbedtls_pk_init _ _ => true
  | .pk_parse_keyfile _ _ => true
  | .pk_parse_key _ _ _ => true
  | _ => false

/-- The two ways through a part of `iot_tls_connect` that starts after the socket
is asked for, with trace `tr`: a failure before the handshake loop, with no handshake
step in the trace after `tr`, or the handshake loop and what follows it. -/
def SessionCases (K : Kconfig) (E : Codes) (L : Library) (pNetwork : Network)
    (tr : List Event) (r : ConnectResult) : Prop :=
  (r.ret ≠ .SUCCESS ∧ ∃ tr₁, r.trace = tr ++ tr₁ ∧ ∀ ret, Event.ssl_handshake ret ∉ tr₁) ∨
  ∃ net' tr₁ b tr₂, net'.tlsConnectParams = pNetwork.tlsConnectParams ∧
    net'.tlsDataParams.flags = pNetwork.tlsDataParams.flags ∧
    (∀ ret, Event.ssl_handshake ret ∉ tr₁) ∧
    handshake_loop E L.ssl_handshake (tr ++ tr₁) = some (b, tr₂) ∧
    r = if b = true then connect_verify K L net' tr₂
      else { ret := .SSL_CONNECTION_ERROR, pNetwork := some net', trace := tr₂ }

/-- The content of the caller's variable behind `written_len` or `read_len` after a
call: what the call stored, or, when it stored nothing, the content `before` the
call. -/
def caller_count (before : Nat) (stored : Option Nat) : Nat :=
  match stored with
  | some n => n
  | none => before

/-- Every step of `iot_tls_connect` before the handshake loop succeeds, on the
connection parameters `P`: none of the tests that make it return before the loop
holds. -/
def PreHandshakeOk (K : Kconfig) (E : Codes) (L : Library) (P : TLSConnectParams) : Prop :=
  L.ctr_drbg_seed = 0 ∧
  ¬ (load_root_ca L P.pRootCALocation).1 < 0 ∧
  (load_client_cert K L P.pDeviceCertLocation).1 = 0 ∧
  (parse_private_key K E L P.pDevicePrivateKeyLocation).1 = 0 ∧
  L.net_connect P.pDestinationURL P.DestinationPort = 0 ∧
  L.net_set_block = 0 ∧
  L.ssl_config_defaults = 0 ∧
  L.ssl_conf_own_cert = 0 ∧
  (K.CONFIG_MBEDTLS_SSL_ALPN = true ∧ P.DestinationPort = 443 →
    L.ssl_conf_alpn_protocols = 0) ∧
  L.ssl_setup = 0 ∧
  L.ssl_set_hostname P.pDestinationURL = 0

/-! ## Sample runs -/

/-- A write of 10 bytes: 4 bytes taken, one "want write" with the retry timer still
running, then the other 6 bytes taken. -/
def run_write_success : WriteResult :=
  { ret := .SUCCESS, written_len := some 10, sends := [], expiries := [],
    trace := [Event.countdown_ms TimerId.writeTimer 10, Event.ssl_write 0 10 4,
      Event.countdown_ms TimerId.writeTimer 10, Event.ssl_write 4 6 (-0x6880),
      Event.has_timer_expired TimerId.writeTimer false, Event.ssl_write 4 6 6,
      Event.countdown_ms TimerId.writeTimer 10] }

/-- The loop state of a write of 10000 bytes after the peer took 4000 bytes and then
answered "want write" once with the retry timer still running. -/
def stalled_write : WriteState :=
  { pMsg := 4000, len := 6000, txLen := 4000, sends := [-0x6880], expiries := [true],
    trace := [Event.countdown_ms TimerId.writeTimer 10, Event.ssl_write 0 10000 4000,
      Event.countdown_ms TimerId.writeTimer 10, Event.ssl_write 4000 6000 (-0x6880),
      Event.has_timer_expired TimerId.writeTimer false] }

/-- A session configuration: verification required, read deadline 3. -/
def demo_conf : mbedtls_ssl_config :=
  { authmode := 2, read_timeout := 3, alpn_list := none }

/-- The loop state of a read of 5 bytes on `demo_conf` after 2 bytes arrived while the
caller's timer had 7 ms left. -/
def stalled_read : ReadState :=
  { pMsg := 2, len := 3, rxLen := 2, read_timeout := 3, conf := demo_conf,
    recvs := [-0x6800], lefts := [0, 0], expiries := [true],
    trace := [Event.countdown_ms TimerId.readTimer 10, Event.left_ms 7, Event.left_ms 7,
      Event.ssl_conf_read_timeout 3, Event.ssl_read 3 0 5 2, Event.ssl_conf_read_timeout 3,
      Event.countdown_ms TimerId.readTimer 10] }

/-- The read of `stalled_read`, ended by a receive timeout with the retry timer
expired and the caller's timer at 0. -/
def run_read_timeout : ReadResult :=
  { ret := .NETWORK_SSL_READ_TIMEOUT_ERROR, read_len := some 2, conf := demo_conf,
    recvs := [], lefts := [], expiries := [],
    trace := stalled_read.trace ++ [Event.left_ms 0, Event.left_ms 0,
      Event.ssl_conf_read_timeout 1,
      Event.ssl_read 1 2 3 (-0x6800), Event.ssl_conf_read_timeout 3,
      Event.has_timer_expired TimerId.readTimer true] }

/-- A write of 1 byte whose only attempt reports 2 bytes sent. -/
def run_write_overrun : WriteResult :=
  { ret := .NETWORK_SSL_WRITE_ERROR, written_len := none, sends := [], expiries := [],
    trace := [Event.countdown_ms TimerId.writeTimer 10, Event.ssl_write 0 1 2] }

/-- A write of 1 byte whose only attempt fails with the transport error -1. -/
def run_write_error : WriteResult :=
  { ret := .NETWORK_SSL_WRITE_ERROR, written_len := none, sends := [], expiries := [],
    trace := [Event.countdown_ms TimerId.writeTimer 10, Event.ssl_write 0 1 (-1)] }

/-- A build without the secure element, with ALPN, with a blocking socket. -/
def demo_build : Kconfig :=
  { CONFIG_AWS_IOT_USE_HARDWARE_SECURE_ELEMENT := false, CONFIG_MBEDTLS_SSL_ALPN := true,
    CONFIG_AWS_IOT_SSL_SOCKET_NON_BLOCKING := false }

/-- A transport object bound to a broker on port 8883, root CA and device certificate
inline, private key in a file, server verification on. -/
def demo_network : Network :=
  { tlsConnectParams :=
      { pRootCALocation := cstr "-----BEGIN CERTIFICATE-----"
        pDeviceCertLocation := cstr "-----BEGIN CERTIFICATE-----"
        pDevicePrivateKeyLocation := cstr "/spiffs/client.key"
        pDestinationURL := cstr "broker"
        DestinationPort := 8883
        timeout_ms := 3000
        ServerVerificationFlag := true }
    tlsDataParams := { flags := 0, conf := mbedtls_ssl_config_init } }

/-- A library in which every primitive succeeds; the handshake step wants to read
once and then completes; the verification result is `flags`. -/
def demo_library (flags : Nat) : Library :=
  { ctr_drbg_seed := 0
    x509_crt_parse_file := fun _ _ => 0
    x509_crt_parse := fun _ _ _ => 0
    tng_get_device_cert_def := 0
    atca_mbedtls_cert_add := 0
    atca_mbedtls_pk_init := fun _ => 0
    pk_parse_keyfile := fun _ => 0
    pk_parse_key := fun _ _ => 0
    net_connect := fun _ _ => 0
    net_set_block := 0
    ssl_config_defaults := 0
    ssl_conf_own_cert := 0
    ssl_conf_alpn_protocols := 0
    ssl_setup := 0
    ssl_set_hostname := fun _ => 0
    ssl_handshake := [-0x6900, 0]
    ssl_get_verify_result := flags }

/-- The trace of `iot_tls_connect` on `demo_network` and `demo_library` up to the
handshake loop. -/
def demo_setup_trace : List Event :=
  [Event.ctr_drbg_seed 0,
   Event.x509_crt_parse .cacert (cstr "-----BEGIN CERTIFICATE-----") 28 0,
   Event.x509_crt_parse .clicert (cstr "-----BEGIN CERTIFICATE-----") 28 0,
   Event.pk_parse_keyfile (cstr "/spiffs/client.key") 0,
   Event.net_connect (cstr "broker") 8883 0,
   Event.net_set_block 0,
   Event.ssl_config_defaults 0,
   Event.ssl_conf_authmode 2,
   Event.ssl_conf_own_cert 0,
   Event.ssl_conf_read_timeout 3000,
   Event.ssl_setup 0,
   Event.ssl_set_hostname (cstr "broker") 0]

/-- The transport object `demo_network` after a connect that got past the
configuration, with verification flags `flags`. -/
def demo_connected (flags : Nat) : Network :=
  { demo_network with tlsDataParams :=
      { flags := flags, conf := { authmode := 2, read_timeout := 3000, alpn_list := none } } }

/-- The connect of `demo_network` on `demo_library 0`: handshake completed, no
verification flag. -/
def run_connect_verified : ConnectResult :=
  { ret := .SUCCESS, pNetwork := some (demo_connected 0),
    trace := demo_setup_trace ++ [Event.ssl_handshake (-0x6900), Event.ssl_handshake 0,
      Event.ssl_get_verify_result 0] }

/-- The connect of `demo_network` on `demo_library 8`: handshake completed,
verification flag 8 (the certificate is not trusted). -/
def run_connect_unverified : ConnectResult :=
  { ret := .SSL_CONNECTION_ERROR, pNetwork := some (demo_connected 8),
    trace := demo_setup_trace ++ [Event.ssl_handshake (-0x6900), Event.ssl_handshake 0,
      Event.ssl_get_verify_result 8] }

/-- The loop state of a write of 10000 bytes after the peer took 4000 bytes and then
answered "want write" once with the retry timer still running, when the next attempt
fails with -0x7880 (the peer closed the connection) and one more result is scripted. -/
def broken_write : WriteState :=
  { stalled_write with sends := [-0x7880, 5] }

/-- A write of 10 bytes: 4 bytes taken, then the transport error -1. -/
def run_write_broken : WriteResult :=
  { ret := .NETWORK_SSL_WRITE_ERROR, written_len := none, sends := [], expiries := [],
    trace := [Event.countdown_ms TimerId.writeTimer 10, Event.ssl_write 0 10 4,
      Event.countdown_ms TimerId.writeTimer 10, Event.ssl_write 4 6 (-1)] }

/-- A read of 5 bytes on `demo_conf`: 2 bytes arrive, then the transport error -1. -/
def run_read_broken : ReadResult :=
  { ret := .NETWORK_SSL_READ_ERROR, read_len := none, conf := demo_conf,
    recvs := [], lefts := [], expiries := [true],
    trace := stalled_read.trace ++ [Event.left_ms 0, Event.left_ms 0,
      Event.ssl_conf_read_timeout 1,
      Event.ssl_read 1 2 3 (-1), Event.ssl_conf_read_timeout 3] }

/-- The connection parameters of `demo_network` with server verification off. -/
def unverified_params : TLSConnectParams :=
  { demo_network.tlsConnectParams with ServerVerificationFlag := false }

/-- The connect of `demo_network` with `unverified_params` on `demo_library 8`:
handshake completed, verification skipped. -/
def run_connect_skipped : ConnectResult :=
  { ret := .SUCCESS,
    pNetwork := some
      { tlsConnectParams := unverified_params
        tlsDataParams :=
          { flags := 0, conf := { authmode := 1, read_timeout := 3000, alpn_list := none } } },
    trace := [Event.ctr_drbg_seed 0,
      Event.x509_crt_parse .cacert (cstr "-----BEGIN CERTIFICATE-----") 28 0,
      Event.x509_crt_parse .clicert (cstr "-----BEGIN CERTIFICATE-----") 28 0,
      Event.pk_parse_keyfile (cstr "/spiffs/client.key") 0,
      Event.net_connect (cstr "broker") 8883 0,
      Event.net_set_block 0,
      Event.ssl_config_defaults 0,
      Event.ssl_conf_authmode 1,
      Event.ssl_conf_own_cert 0,
      Event.ssl_conf_read_timeout 3000,
      Event.ssl_setup 0,
      Event.ssl_set_hostname (cstr "broker") 0,
      Event.ssl_handshake (-0x6900), Event.ssl_handshake 0] }

/-! ## Lemmas on traces and on the loop of `iot_tls_write` -/

theorem transferred_append (a b : List Event) :
    transferred (a ++ b) = transferred a + transferred b := by
  simp [transferred]

theorem transferred_snoc (tr : List Event) (e : Event) :
    transferred (tr ++ [e]) = transferred tr + e.bytes := by
  simp [transferred]

theorem bytes_of_pos {e : Event} {ret : Int} (hpos : 0 < ret)
    (he : (∃ pMsg l, e = Event.ssl_write pMsg l ret) ∨
      ∃ t pMsg l, e = Event.ssl_read t pMsg l ret) : e.bytes = ret.toNat := by
  rcases he with ⟨_, _, rfl⟩ | ⟨_, _, _, rfl⟩ <;> simp [Event.bytes, hpos]

theorem bytes_of_nonpos {e : Event} {ret : Int} (hle : ret ≤ 0)
    (he : (∃ pMsg l, e = Event.ssl_write pMsg l ret) ∨
      ∃ t pMsg l, e = Event.ssl_read t pMsg l ret) : e.bytes = 0 := by
  rcases he with ⟨_, _, rfl⟩ | ⟨_, _, _, rfl⟩ <;> simp [Event.bytes, not_lt.mpr hle]

theorem snoc_eq_append_cons {α : Type} {tr pre post : List α} {e w : α}
    (h : tr ++ [e] = pre ++ w :: post) :
    (pre = tr ∧ w = e ∧ post = []) ∨ ∃ post', post = post' ++ [e] ∧ tr = pre ++ w :: post' := by
  rcases List.eq_nil_or_concat post with hp | ⟨post', x, hp⟩
  · subst hp
    have h' : tr ++ [e] = pre ++ [w] := h
    have := List.append_inj' h' rfl
    left
    refine ⟨this.1.symm, ?_, rfl⟩
    simpa using this.2.symm
  · subst hp
    have h' : tr ++ [e] = (pre ++ w :: post') ++ [x] := by simpa using h
    have := List.append_inj' h' rfl
    right
    refine ⟨post', ?_, this.1⟩
    have hx : e = x := by simpa using this.2
    simp [hx]

theorem OffersUnsent.snoc_write {len : Nat} {tr : List Event} (h : OffersUnsent len tr)
    {pMsg l : Nat} (ret : Int) (h1 : pMsg = transferred tr) (h2 : pMsg + l = len) :
    OffersUnsent len (tr ++ [Event.ssl_write pMsg l ret]) := by
  intro pre p l' r post heq
  rcases snoc_eq_append_cons heq with ⟨hpre, hw, _⟩ | ⟨post', _, htr⟩
  · cases hw
    subst hpre
    exact ⟨h1, h2⟩
  · exact h pre p l' r post' htr

theorem OffersUnsent.snoc_nonwrite {len : Nat} {tr : List Event} (h : OffersUnsent len tr)
    (e : Event) (he : ∀ pMsg l ret, e ≠ Event.ssl_write pMsg l ret) :
    OffersUnsent len (tr ++ [e]) := by
  intro pre p l' r post heq
  rcases snoc_eq_append_cons heq with ⟨_, hw, _⟩ | ⟨post', _, htr⟩
  · exact absurd hw.symm (he p l' r)
  · exact h pre p l' r post' htr

theorem write_init_inv (len : Nat) (sends : List Int) (expiries : List Bool) :
    WriteInv len (write_init len sends expiries) := by
  refine ⟨by simp [write_init], rfl, by simp [write_init, transferred, Event.bytes], ?_⟩
  intro pre pMsg l ret post h
  rcases pre with _ | ⟨e, pre⟩
  · simp [write_init] at h
  · simp [write_init] at h

/-- What one pass through the body of the loop of `iot_tls_write` does, case by case
on the result of `mbedtls_ssl_write` and the reading of the retry timer. -/
theorem write_body_cases (E : Codes) (s : WriteState) :
    (s.sends = [] ∧ write_body E s = .stuck) ∨
    (∃ ret sends, s.sends = ret :: sends ∧
      let tr := s.trace ++ [Event.ssl_write s.pMsg s.len ret]
      (0 < ret ∧ s.len < ret.toNat ∧ write_body E s = .done
          { ret := .NETWORK_SSL_WRITE_ERROR, written_len := none, sends := sends,
            expiries := s.expiries, trace := tr }) ∨
      (0 < ret ∧ ret.toNat ≤ s.len ∧ write_body E s = .next
          { pMsg := s.pMsg + ret.toNat, len := s.len - ret.toNat,
            txLen := (s.txLen + ret.toNat) % SIZE_T_MOD, sends := sends,
            expiries := s.expiries,
            trace := tr ++ [Event.countdown_ms TimerId.writeTimer
              IOT_SSL_WRITE_RETRY_TIMEOUT_MS] }) ∨
      (ret ≤ 0 ∧ (ret = E.MBEDTLS_ERR_SSL_WANT_READ ∨ ret = E.MBEDTLS_ERR_SSL_WANT_WRITE) ∧
        s.expiries = [] ∧ write_body E s = .stuck) ∨
      (ret ≤ 0 ∧ (ret = E.MBEDTLS_ERR_SSL_WANT_READ ∨ ret = E.MBEDTLS_ERR_SSL_WANT_WRITE) ∧
        ∃ expiries, s.expiries = true :: expiries ∧ write_body E s = .done
          { ret := .NETWORK_SSL_WRITE_TIMEOUT_ERROR, written_len := some s.txLen,
            sends := sends, expiries := expiries,
            trace := tr ++ [Event.has_timer_expired TimerId.writeTimer true] }) ∨
      (ret ≤ 0 ∧ (ret = E.MBEDTLS_ERR_SSL_WANT_READ ∨ ret = E.MBEDTLS_ERR_SSL_WANT_WRITE) ∧
        ∃ expiries, s.expiries = false :: expiries ∧ write_body E s = .next
          { s with sends := sends, expiries := expiries,
                   trace := tr ++ [Event.has_timer_expired TimerId.writeTimer false] }) ∨
      (ret ≤ 0 ∧ ¬ (ret = E.MBEDTLS_ERR_SSL_WANT_READ ∨ ret = E.MBEDTLS_ERR_SSL_WANT_WRITE) ∧
        write_body E s = .done
          { ret := .NETWORK_SSL_WRITE_ERROR, written_len := none, sends := sends,
            expiries := s.expiries, trace := tr })) := by
  rcases hs : s.sends with _ | ⟨ret, sends⟩
  · left
    simp [write_body, hs]
  · right
    refine ⟨ret, sends, rfl, ?_⟩
    by_cases hpos : 0 < ret
    · by_cases hover : s.len < ret.toNat
      · left
        simp [write_body, hs, hpos, hover, WriteState.returns]
      · right; left
        simp [write_body, hs, hpos, hover, Nat.le_of_not_lt hover]
    · have hle : ret ≤ 0 := not_lt.mp hpos
      by_cases htr : ret = E.MBEDTLS_ERR_SSL_WANT_READ ∨ ret = E.MBEDTLS_ERR_SSL_WANT_WRITE
      · rcases he : s.expiries with _ | ⟨b, expiries⟩
        · right; right; left
          simp [write_body, hs, hpos, htr, he, hle]
        · cases b
          · right; right; right; right; left
            simp [write_body, hs, hpos, htr, he, hle]
          · right; right; right; left
            simp [write_body, hs, hpos, htr, he, hle, WriteState.returns]
      · right; right; right; right; right
        simp [write_body, hs, hpos, htr, hle, WriteState.returns]

theorem write_body_next_inv (E : Codes) {len₀ : Nat} {s s' : WriteState}
    (hlen : len₀ < SIZE_T_MOD) (hi : WriteInv len₀ s) (h : write_body E s = .next s') :
    WriteInv len₀ s' := by
  obtain ⟨hsum, hptr, hcount, hoff⟩ := hi
  rcases write_body_cases E s with ⟨_, hb⟩ | ⟨ret, sends, _, hc⟩
  · rw [hb] at h; cases h
  · rcases hc with ⟨_, _, hb⟩ | ⟨hpos, hle, hb⟩ | ⟨_, _, _, hb⟩ | ⟨_, _, _, _, hb⟩ |
      ⟨hle, _, _, _, hb⟩ | ⟨_, _, hb⟩
    · rw [hb] at h; cases h
    · rw [hb] at h
      cases h
      have hb : Event.bytes (Event.ssl_write s.pMsg s.len ret) = ret.toNat :=
        bytes_of_pos hpos (.inl ⟨_, _, rfl⟩)
      have hmod : (s.txLen + ret.toNat) % SIZE_T_MOD = s.txLen + ret.toNat :=
        Nat.mod_eq_of_lt (by omega)
      refine ⟨?_, ?_, ?_, ?_⟩
      · simp only [hmod]; omega
      · simp only [hmod]; omega
      · simp only [hmod, transferred_snoc, hcount, hb]
        rfl
      · refine (hoff.snoc_write ret (by omega) (by omega)).snoc_nonwrite _ ?_
        intro _ _ _ hne; cases hne
    · rw [hb] at h; cases h
    · rw [hb] at h; cases h
    · rw [hb] at h
      cases h
      have hb : Event.bytes (Event.ssl_write s.pMsg s.len ret) = 0 :=
        bytes_of_nonpos hle (.inl ⟨_, _, rfl⟩)
      refine ⟨hsum, hptr, ?_, ?_⟩
      · simp only [transferred_snoc, hcount, hb]
        rfl
      · refine (hoff.snoc_write ret (by omega) (by omega)).snoc_nonwrite _ ?_
        intro _ _ _ hne; cases hne
    · rw [hb] at h; cases h

/-- A pass through the body that goes on to the next test of the loop condition has
taken exactly one result from the script of `mbedtls_ssl_write`. -/
theorem write_body_next_sends (E : Codes) {s s' : WriteState}
    (h : write_body E s = .next s') : ∃ ret, s.sends = ret :: s'.sends := by
  rcases write_body_cases E s with ⟨_, hb⟩ | ⟨ret, sends, hs, hc⟩
  · rw [hb] at h; cases h
  · refine ⟨ret, ?_⟩
    rcases hc with ⟨_, _, hb⟩ | ⟨_, _, hb⟩ | ⟨_, _, _, hb⟩ | ⟨_, _, _, _, hb⟩ |
      ⟨_, _, _, _, hb⟩ | ⟨_, _, hb⟩ <;> rw [hb] at h <;> cases h <;> exact hs

theorem write_body_done_outcome (E : Codes) {len₀ : Nat} {s : WriteState} {r : WriteResult}
    (hi : WriteInv len₀ s) (hpos : 0 < s.len) (h : write_body E s = .done r) :
    WriteOutcome len₀ r := by
  obtain ⟨hsum, hptr, hcount, hoff⟩ := hi
  rcases write_body_cases E s with ⟨_, hb⟩ | ⟨ret, sends, _, hc⟩
  · rw [hb] at h; cases h
  · rcases hc with ⟨_, _, hb⟩ | ⟨_, _, hb⟩ | ⟨_, _, _, hb⟩ | ⟨hle, _, _, _, hb⟩ |
      ⟨_, _, _, _, hb⟩ | ⟨_, _, hb⟩
    · rw [hb] at h; cases h
      exact .error rfl rfl
    · rw [hb] at h; cases h
    · rw [hb] at h; cases h
    · rw [hb] at h
      cases h
      have hb : Event.bytes (Event.ssl_write s.pMsg s.len ret) = 0 :=
        bytes_of_nonpos hle (.inl ⟨_, _, rfl⟩)
      have ht : transferred (s.trace ++ [Event.ssl_write s.pMsg s.len ret] ++
          [Event.has_timer_expired TimerId.writeTimer true]) = s.txLen := by
        simp only [transferred_snoc, hcount, hb]
        rfl
      refine .timeout rfl ?_ ?_ ?_
      · simp only [ht]
      · simp only [ht]; omega
      · refine (hoff.snoc_write ret (by omega) (by omega)).snoc_nonwrite _ ?_
        intro _ _ _ hne; cases hne
    · rw [hb] at h; cases h
    · rw [hb] at h; cases h
      exact .error rfl rfl

theorem write_loop_outcome (E : Codes) {len₀ : Nat} (hlen : len₀ < SIZE_T_MOD) :
    ∀ (fuel : Nat) (s : WriteState) (r : WriteResult), WriteInv len₀ s →
      write_loop E fuel s = some r → WriteOutcome len₀ r := by
  intro fuel
  induction fuel with
  | zero => intro s r _ h; simp [write_loop] at h
  | succ n ih =>
    intro s r hi h
    by_cases hpos : 0 < s.len
    · simp only [write_loop, hpos, if_true] at h
      rcases hb : write_body E s with s' | r' | _
      · rw [hb] at h
        exact ih s' r (write_body_next_inv E hlen hi hb) h
      · rw [hb] at h
        cases h
        exact write_body_done_outcome E hi hpos hb
      · rw [hb] at h; cases h
    · simp only [write_loop, hpos, if_false] at h
      cases h
      have h0 : s.len = 0 := by omega
      have := hi.sum
      refine .success rfl ?_ ?_ ?_
      · simp [WriteState.returns]; omega
      · simp [WriteState.returns, hi.count]; omega
      · exact hi.offers

theorem write_reach_inv (E : Codes) {len : Nat} (hlen : len < SIZE_T_MOD)
    {s₀ s : WriteState} (h₀ : WriteInv len s₀) (h : WriteReach E s₀ s) : WriteInv len s := by
  induction h with
  | start => exact h₀
  | step _ _ hb ih => exact write_body_next_inv E hlen ih hb

/-- From a loop state that the run passes through, the loop gives what it gives from
the first one. -/
theorem write_reach_loop (E : Codes) {s₀ s : WriteState} (h : WriteReach E s₀ s) :
    write_loop E (s.sends.length + 1) s = write_loop E (s₀.sends.length + 1) s₀ := by
  induction h with
  | start => rfl
  | @step s s' _ hpos hb ih =>
    rw [← ih]
    obtain ⟨ret, hs⟩ := write_body_next_sends E hb
    rw [hs, List.length_cons]
    conv_rhs => rw [write_loop]
    simp only [gt_iff_lt, hpos, if_true, hb]

/-! ## The loop of `iot_tls_read` -/

theorem append_eq_append_cons {α : Type} {a b pre post : List α} {w : α}
    (h : a ++ b = pre ++ w :: post) :
    (∃ c, a = pre ++ w :: c ∧ post = c ++ b) ∨ ∃ a', pre = a ++ a' ∧ b = a' ++ w :: post := by
  rcases List.append_eq_append_iff.mp h with ⟨a', h1, h2⟩ | ⟨c', h1, h2⟩
  · exact .inr ⟨a', h1, h2⟩
  · rcases c' with _ | ⟨x, c⟩
    · refine .inr ⟨[], ?_, ?_⟩
      · simpa using h1.symm
      · simpa using h2.symm
    · simp only [List.cons_append, List.cons.injEq] at h2
      obtain ⟨hw, hp⟩ := h2
      subst hw
      exact .inl ⟨c, h1, hp⟩

theorem ReadCalls.append_nonread {d : Nat} {tr : List Event} (h : ReadCalls d tr)
    (evs : List Event) (he : ∀ e ∈ evs, ∀ t pMsg l ret, e ≠ Event.ssl_read t pMsg l ret) :
    ReadCalls d (tr ++ evs) := by
  intro pre t p l' r post heq
  rcases append_eq_append_cons heq with ⟨c, htr, hpost⟩ | ⟨a', _, hb⟩
  · obtain ⟨pre', post', h1, h3⟩ := h pre t p l' r c htr
    exact ⟨pre', post' ++ evs, h1, by rw [hpost, h3]; rfl⟩
  · exact absurd rfl (he (Event.ssl_read t p l' r) (by rw [hb]; simp) t p l' r)

theorem ReadCalls.attempt {d : Nat} {tr : List Event} (h : ReadCalls d tr)
    (timeout pMsg l : Nat) (ret : Int) :
    ReadCalls d (tr ++ [Event.ssl_conf_read_timeout timeout,
      Event.ssl_read timeout pMsg l ret, Event.ssl_conf_read_timeout d]) := by
  intro pre t p l' r post heq
  rcases append_eq_append_cons heq with ⟨c, htr, hpost⟩ | ⟨a', hpre, hb⟩
  · obtain ⟨pre', post', h1, h3⟩ := h pre t p l' r c htr
    exact ⟨pre', post' ++ _, h1, by rw [hpost, h3]; rfl⟩
  · rcases a' with _ | ⟨x, _ | ⟨y, _ | ⟨z, a'⟩⟩⟩
    · simp at hb
    · simp only [List.cons_append, List.nil_append, List.cons.injEq, Event.ssl_read.injEq]
        at hb
      obtain ⟨hx, ⟨ht, _, _, _⟩, hpost⟩ := hb
      subst hx hpost
      refine ⟨tr, [], ?_, rfl⟩
      rw [hpre, ← ht]
    · simp at hb
    · simp at hb

theorem ReadCalls.snoc_nonread {d : Nat} {tr : List Event} (h : ReadCalls d tr)
    (e : Event) (he : ∀ t pMsg l ret, e ≠ Event.ssl_read t pMsg l ret) :
    ReadCalls d (tr ++ [e]) := by
  refine h.append_nonread [e] ?_
  intro e' he' t p l r
  rw [List.mem_singleton.mp he']
  exact he t p l r

/-- The readings that one evaluation of `MIN(read_timeout, left_ms(timer))` takes are
readings of `left_ms(timer)`. -/
theorem MIN_left_ms_events {d : Nat} {lefts rest : List Nat} {v : Nat} {evs : List Event}
    (h : MIN_left_ms d lefts = some (v, rest, evs)) :
    ∀ e ∈ evs, ∃ l, e = Event.left_ms l := by
  unfold MIN_left_ms at h
  rcases lefts with _ | ⟨l₁, lefts⟩
  · cases h
  · simp only at h
    split_ifs at h
    · cases h
      intro e he
      exact ⟨_, by simpa using he⟩
    · rcases lefts with _ | ⟨l₂, lefts⟩
      · cases h
      · cases h
        intro e he
        simp only [List.mem_cons, List.mem_singleton, List.not_mem_nil, or_false] at he
        rcases he with rfl | rfl
        · exact ⟨_, rfl⟩
        · exact ⟨_, rfl⟩

/-- The readings that one evaluation of `MAX(1, MIN(read_timeout, left_ms(timer)))`
takes are readings of `left_ms(timer)`. -/
theorem MAX_1_MIN_left_ms_events {d : Nat} {lefts rest : List Nat} {t : Nat}
    {evs : List Event} (h : MAX_1_MIN_left_ms d lefts = some (t, rest, evs)) :
    ∀ e ∈ evs, ∃ l, e = Event.left_ms l := by
  unfold MAX_1_MIN_left_ms at h
  rcases h₁ : MIN_left_ms d lefts with _ | ⟨v, lefts₁, evs₁⟩
  · rw [h₁] at h; cases h
  · rw [h₁] at h
    simp only at h
    split_ifs at h
    · cases h
      exact MIN_left_ms_events h₁
    · rcases h₂ : MIN_left_ms d lefts₁ with _ | ⟨v', lefts₂, evs₂⟩
      · rw [h₂] at h; cases h
      · rw [h₂] at h
        cases h
        intro e he
        rcases List.mem_append.mp he with he | he
        · exact MIN_left_ms_events h₁ e he
        · exact MIN_left_ms_events h₂ e he

/-- When the readings of `left_ms(timer)` do not change while
`MIN(read_timeout, left_ms(timer))` is evaluated, its value is the smaller of the two. -/
theorem MIN_left_ms_stable {d l : Nat} {lefts rest : List Nat} {v : Nat} {evs : List Event}
    (h : MIN_left_ms d lefts = some (v, rest, evs))
    (hl : ∀ e ∈ evs, e = Event.left_ms l) : v = min d l := by
  unfold MIN_left_ms at h
  rcases lefts with _ | ⟨l₁, lefts⟩
  · cases h
  · simp only at h
    split_ifs at h with hlt
    · cases h
      have := hl _ (List.mem_singleton.mpr rfl)
      cases this
      omega
    · rcases lefts with _ | ⟨l₂, lefts⟩
      · cases h
      · cases h
        have h₁ := hl (Event.left_ms l₁) (by simp)
        have h₂ := hl (Event.left_ms v) (by simp)
        cases h₁
        cases h₂
        omega

/-- When the readings of `left_ms(timer)` do not change while
`MAX(1, MIN(read_timeout, left_ms(timer)))` is evaluated, its value is
`max 1 (min read_timeout l)` for the reading `l`. -/
theorem MAX_1_MIN_left_ms_stable {d l : Nat} {lefts rest : List Nat} {t : Nat}
    {evs : List Event} (h : MAX_1_MIN_left_ms d lefts = some (t, rest, evs))
    (hl : ∀ e ∈ evs, e = Event.left_ms l) : t = max 1 (min d l) := by
  unfold MAX_1_MIN_left_ms at h
  rcases h₁ : MIN_left_ms d lefts with _ | ⟨v, lefts₁, evs₁⟩
  · rw [h₁] at h; cases h
  · rw [h₁] at h
    simp only at h
    split_ifs at h with hv
    · cases h
      have := MIN_left_ms_stable h₁ hl
      omega
    · rcases h₂ : MIN_left_ms d lefts₁ with _ | ⟨v', lefts₂, evs₂⟩
      · rw [h₂] at h; cases h
      · rw [h₂] at h
        cases h
        have e₁ := MIN_left_ms_stable h₁ (fun e he => hl e (List.mem_append.mpr (.inl he)))
        have e₂ := MIN_left_ms_stable h₂ (fun e he => hl e (List.mem_append.mpr (.inr he)))
        omega

theorem transferred_left_ms {evs : List Event} (h : ∀ e ∈ evs, ∃ l, e = Event.left_ms l) :
    transferred evs = 0 := by
  induction evs with
  | nil => rfl
  | cons e evs ih =>
    obtain ⟨l, rfl⟩ := h e (List.mem_cons_self _ _)
    have := ih (fun e he => h e (List.mem_cons_of_mem _ he))
    simpa [transferred, Event.bytes] using this

theorem read_init_inv (conf : mbedtls_ssl_config) (len : Nat) (recvs : List Int)
    (lefts : List Nat) (expiries : List Bool) :
    ReadInv len (read_init conf len recvs lefts expiries) :=
  ⟨by simp [read_init], by simp [read_init, transferred, Event.bytes]⟩

theorem read_init_conf_inv (conf : mbedtls_ssl_config) (len : Nat) (recvs : List Int)
    (lefts : List Nat) (expiries : List Bool) :
    ReadConfInv conf (read_init conf len recvs lefts expiries) := by
  refine ⟨rfl, rfl, ?_⟩
  intro pre t pMsg l ret post h
  rcases pre with _ | ⟨e, pre⟩
  · simp [read_init] at h
  · simp [read_init] at h

/-- What one pass through the body of the loop of `iot_tls_read` does, case by case on
the result of `mbedtls_ssl_read` and the reading of the retry timer. -/
theorem read_body_cases (E : Codes) (s : ReadState) :
    ((MAX_1_MIN_left_ms s.read_timeout s.lefts = none ∨ s.recvs = []) ∧
      read_body E s = .stuck) ∨
    (∃ timeout lefts evs ret recvs,
      MAX_1_MIN_left_ms s.read_timeout s.lefts = some (timeout, lefts, evs) ∧
      s.recvs = ret :: recvs ∧
      let tr := read_attempt_trace s evs timeout ret
      let conf : mbedtls_ssl_config := { s.conf with read_timeout := s.read_timeout }
      (0 < ret ∧ s.len < ret.toNat ∧ read_body E s = .done
          { ret := .NETWORK_SSL_WRITE_ERROR, read_len := none, conf := conf, recvs := recvs,
            lefts := lefts, expiries := s.expiries, trace := tr }) ∨
      (0 < ret ∧ ret.toNat ≤ s.len ∧ read_body E s = .next
          { pMsg := s.pMsg + ret.toNat, len := s.len - ret.toNat,
            rxLen := (s.rxLen + ret.toNat) % SIZE_T_MOD, read_timeout := s.read_timeout,
            conf := conf, recvs := recvs, lefts := lefts, expiries := s.expiries,
            trace := tr ++ [Event.countdown_ms TimerId.readTimer
              IOT_SSL_READ_RETRY_TIMEOUT_MS] }) ∨
      (ret ≤ 0 ∧ (ret = E.MBEDTLS_ERR_SSL_WANT_READ ∨ ret = E.MBEDTLS_ERR_SSL_WANT_WRITE ∨
          ret = E.MBEDTLS_ERR_SSL_TIMEOUT) ∧ s.expiries = [] ∧ read_body E s = .stuck) ∨
      (ret ≤ 0 ∧ (ret = E.MBEDTLS_ERR_SSL_WANT_READ ∨ ret = E.MBEDTLS_ERR_SSL_WANT_WRITE ∨
          ret = E.MBEDTLS_ERR_SSL_TIMEOUT) ∧
        ∃ expiries, s.expiries = true :: expiries ∧ read_body E s = .done
          { ret := if s.rxLen = 0 then .NETWORK_SSL_NOTHING_TO_READ
              else .NETWORK_SSL_READ_TIMEOUT_ERROR,
            read_len := some s.rxLen, conf := conf, recvs := recvs, lefts := lefts,
            expiries := expiries,
            trace := tr ++ [Event.has_timer_expired TimerId.readTimer true] }) ∨
      (ret ≤ 0 ∧ (ret = E.MBEDTLS_ERR_SSL_WANT_READ ∨ ret = E.MBEDTLS_ERR_SSL_WANT_WRITE ∨
          ret = E.MBEDTLS_ERR_SSL_TIMEOUT) ∧
        ∃ expiries, s.expiries = false :: expiries ∧ read_body E s = .next
          { s with conf := conf, recvs := recvs, lefts := lefts, expiries := expiries,
                   trace := tr ++ [Event.has_timer_expired TimerId.readTimer false] }) ∨
      (ret ≤ 0 ∧ ¬ (ret = E.MBEDTLS_ERR_SSL_WANT_READ ∨ ret = E.MBEDTLS_ERR_SSL_WANT_WRITE ∨
          ret = E.MBEDTLS_ERR_SSL_TIMEOUT) ∧
        read_body E s = .done
          { ret := .NETWORK_SSL_READ_ERROR, read_len := none, conf := conf, recvs := recvs,
            lefts := lefts, expiries := s.expiries, trace := tr })) := by
  rcases hl : MAX_1_MIN_left_ms s.read_timeout s.lefts with _ | ⟨timeout, lefts, evs⟩
  · left
    simp [read_body, hl]
  rcases hs : s.recvs with _ | ⟨ret, recvs⟩
  · left
    simp [read_body, hl, hs]
  right
  refine ⟨timeout, lefts, evs, ret, recvs, rfl, rfl, ?_⟩
  by_cases hpos : 0 < ret
  · by_cases hover : s.len < ret.toNat
    · left
      simp [read_body, hl, hs, hpos, hover, ReadState.returns, read_attempt_trace,
        mbedtls_ssl_conf_read_timeout]
    · right; left
      simp [read_body, hl, hs, hpos, hover, Nat.le_of_not_lt hover, read_attempt_trace,
        mbedtls_ssl_conf_read_timeout]
  · have hle : ret ≤ 0 := not_lt.mp hpos
    by_cases htr : ret = E.MBEDTLS_ERR_SSL_WANT_READ ∨ ret = E.MBEDTLS_ERR_SSL_WANT_WRITE ∨
        ret = E.MBEDTLS_ERR_SSL_TIMEOUT
    · rcases he : s.expiries with _ | ⟨b, expiries⟩
      · right; right; left
        simp [read_body, hl, hs, hpos, htr, he, hle]
      · cases b
        · right; right; right; right; left
          simp [read_body, hl, hs, hpos, htr, he, hle, read_attempt_trace,
            mbedtls_ssl_conf_read_timeout]
        · right; right; right; left
          by_cases h0 : s.rxLen = 0 <;>
          simp [read_body, hl, hs, hpos, htr, he, hle, ReadState.returns, read_attempt_trace,
            mbedtls_ssl_conf_read_timeout, h0]
    · right; right; right; right; right
      simp [read_body, hl, hs, hpos, htr, hle, ReadState.returns, read_attempt_trace,
        mbedtls_ssl_conf_read_timeout]

theorem read_attempt_calls {conf₀ : mbedtls_ssl_config} {s : ReadState}
    (hi : ReadConfInv conf₀ s) {evs : List Event}
    (hevs : ∀ e ∈ evs, ∃ l, e = Event.left_ms l) (timeout : Nat) (ret : Int) :
    ReadCalls conf₀.read_timeout (read_attempt_trace s evs timeout ret) := by
  unfold read_attempt_trace
  rw [hi.saved]
  refine (hi.calls.append_nonread evs ?_).attempt timeout s.pMsg s.len ret
  intro e he t p l r heq
  obtain ⟨l', hl⟩ := hevs e he
  rw [hl] at heq
  cases heq

theorem read_attempt_transferred (s : ReadState) {evs : List Event}
    (hevs : ∀ e ∈ evs, ∃ l, e = Event.left_ms l) (timeout : Nat) (ret : Int) :
    transferred (read_attempt_trace s evs timeout ret) =
      transferred s.trace + (if ret > 0 then ret.toNat else 0) := by
  unfold read_attempt_trace
  rw [transferred_append, transferred_append, transferred_left_ms hevs]
  simp [transferred, Event.bytes]

theorem read_conf_restored {conf₀ : mbedtls_ssl_config} {s : ReadState}
    (hi : ReadConfInv conf₀ s) :
    ({ s.conf with read_timeout := s.read_timeout } : mbedtls_ssl_config) = conf₀ := by
  rw [hi.saved, hi.conf]

theorem read_body_next_inv (E : Codes) {len₀ : Nat} {s s' : ReadState}
    (hlen : len₀ < SIZE_T_MOD) (hi : ReadInv len₀ s) (h : read_body E s = .next s') :
    ReadInv len₀ s' := by
  have hsum := hi.sum
  have hcount := hi.count
  rcases read_body_cases E s with ⟨_, hb⟩ | ⟨timeout, lefts, evs, ret, recvs, hd, _, hc⟩
  · rw [hb] at h; cases h
  · rcases hc with ⟨_, _, hb⟩ | ⟨hpos, hle, hb⟩ | ⟨_, _, _, hb⟩ | ⟨_, _, _, _, hb⟩ |
      ⟨hle, _, _, _, hb⟩ | ⟨_, _, hb⟩
    · rw [hb] at h; cases h
    · rw [hb] at h
      cases h
      have hmod : (s.rxLen + ret.toNat) % SIZE_T_MOD = s.rxLen + ret.toNat :=
        Nat.mod_eq_of_lt (by omega)
      refine ⟨?_, ?_⟩
      · simp only [hmod]; omega
      · simp only [hmod, transferred_snoc,
          read_attempt_transferred s (MAX_1_MIN_left_ms_events hd), hcount, gt_iff_lt, hpos,
          if_true]
        rfl
    · rw [hb] at h; cases h
    · rw [hb] at h; cases h
    · rw [hb] at h
      cases h
      refine ⟨hsum, ?_⟩
      simp only [transferred_snoc,
          read_attempt_transferred s (MAX_1_MIN_left_ms_events hd), hcount, gt_iff_lt,
        not_lt.mpr hle, if_false]
      rfl
    · rw [hb] at h; cases h

theorem read_body_next_conf_inv (E : Codes) {conf₀ : mbedtls_ssl_config}
    {s s' : ReadState} (hi : ReadConfInv conf₀ s) (h : read_body E s = .next s') :
    ReadConfInv conf₀ s' := by
  rcases read_body_cases E s with ⟨_, hb⟩ | ⟨timeout, lefts, evs, ret, recvs, hd, _, hc⟩
  · rw [hb] at h; cases h
  · rcases hc with ⟨_, _, hb⟩ | ⟨_, _, hb⟩ | ⟨_, _, _, hb⟩ | ⟨_, _, _, _, hb⟩ |
      ⟨_, _, _, _, hb⟩ | ⟨_, _, hb⟩
    · rw [hb] at h; cases h
    · rw [hb] at h
      cases h
      refine ⟨read_conf_restored hi, hi.saved, ?_⟩
      refine (read_attempt_calls hi (MAX_1_MIN_left_ms_events hd) timeout ret).snoc_nonread _ ?_
      intro _ _ _ _ hne; cases hne
    · rw [hb] at h; cases h
    · rw [hb] at h; cases h
    · rw [hb] at h
      cases h
      refine ⟨read_conf_restored hi, hi.saved, ?_⟩
      refine (read_attempt_calls hi (MAX_1_MIN_left_ms_events hd) timeout ret).snoc_nonread _ ?_
      intro _ _ _ _ hne; cases hne
    · rw [hb] at h; cases h

/-- A pass through the body that goes on to the next test of the loop condition has
taken exactly one result from the script of `mbedtls_ssl_read`. -/
theorem read_body_next_recvs (E : Codes) {s s' : ReadState}
    (h : read_body E s = .next s') : ∃ ret, s.recvs = ret :: s'.recvs := by
  rcases read_body_cases E s with ⟨_, hb⟩ | ⟨timeout, lefts, evs, ret, recvs, _, hs, hc⟩
  · rw [hb] at h; cases h
  · refine ⟨ret, ?_⟩
    rcases hc with ⟨_, _, hb⟩ | ⟨_, _, hb⟩ | ⟨_, _, _, hb⟩ | ⟨_, _, _, _, hb⟩ |
      ⟨_, _, _, _, hb⟩ | ⟨_, _, hb⟩ <;> rw [hb] at h <;> cases h <;> exact hs

theorem read_body_done_outcome (E : Codes) {len₀ : Nat} {s : ReadState} {r : ReadResult}
    (hi : ReadInv len₀ s) (hpos : 0 < s.len) (h : read_body E s = .done r) :
    ReadOutcome len₀ r := by
  have hsum := hi.sum
  have hcount := hi.count
  rcases read_body_cases E s with ⟨_, hb⟩ | ⟨timeout, lefts, evs, ret, recvs, hd, _, hc⟩
  · rw [hb] at h; cases h
  · rcases hc with ⟨_, _, hb⟩ | ⟨_, _, hb⟩ | ⟨_, _, _, hb⟩ | ⟨hle, _, _, _, hb⟩ |
      ⟨_, _, _, _, hb⟩ | ⟨_, _, hb⟩
    · rw [hb] at h; cases h
      exact .overrun rfl rfl
    · rw [hb] at h; cases h
    · rw [hb] at h; cases h
    · rw [hb] at h
      cases h
      have ht : transferred (read_attempt_trace s evs timeout ret ++
          [Event.has_timer_expired TimerId.readTimer true]) = s.rxLen := by
        simp only [transferred_snoc,
          read_attempt_transferred s (MAX_1_MIN_left_ms_events hd), hcount, gt_iff_lt,
          not_lt.mpr hle, if_false]
        rfl
      by_cases h0 : s.rxLen = 0
      · refine .nothing (by simp [h0]) (by simp [h0]) ?_
        simp only [ht, h0]
      · refine .timeout (by simp [h0]) ?_ ?_ ?_
        · simp only [ht]
        · simp only [ht]; omega
        · simp only [ht]; omega
    · rw [hb] at h; cases h
    · rw [hb] at h; cases h
      exact .error rfl rfl

theorem read_body_done_conf (E : Codes) {conf₀ : mbedtls_ssl_config}
    {s : ReadState} {r : ReadResult} (hi : ReadConfInv conf₀ s)
    (h : read_body E s = .done r) :
    r.conf = conf₀ ∧ ReadCalls conf₀.read_timeout r.trace := by
  rcases read_body_cases E s with ⟨_, hb⟩ | ⟨timeout, lefts, evs, ret, recvs, hd, _, hc⟩
  · rw [hb] at h; cases h
  · rcases hc with ⟨_, _, hb⟩ | ⟨_, _, hb⟩ | ⟨_, _, _, hb⟩ | ⟨_, _, _, _, hb⟩ |
      ⟨_, _, _, _, hb⟩ | ⟨_, _, hb⟩
    · rw [hb] at h; cases h
      exact ⟨read_conf_restored hi, read_attempt_calls hi (MAX_1_MIN_left_ms_events hd) timeout ret⟩
    · rw [hb] at h; cases h
    · rw [hb] at h; cases h
    · rw [hb] at h
      cases h
      refine ⟨read_conf_restored hi, ?_⟩
      refine (read_attempt_calls hi (MAX_1_MIN_left_ms_events hd) timeout ret).snoc_nonread _ ?_
      intro _ _ _ _ hne; cases hne
    · rw [hb] at h; cases h
    · rw [hb] at h; cases h
      exact ⟨read_conf_restored hi, read_attempt_calls hi (MAX_1_MIN_left_ms_events hd) timeout ret⟩

theorem read_loop_outcome (E : Codes) {len₀ : Nat} (hlen : len₀ < SIZE_T_MOD) :
    ∀ (fuel : Nat) (s : ReadState) (r : ReadResult), ReadInv len₀ s →
      read_loop E fuel s = some r → ReadOutcome len₀ r := by
  intro fuel
  induction fuel with
  | zero => intro s r _ h; simp [read_loop] at h
  | succ n ih =>
    intro s r hi h
    by_cases hpos : 0 < s.len
    · simp only [read_loop, hpos, if_true] at h
      rcases hb : read_body E s with s' | r' | _
      · rw [hb] at h
        exact ih s' r (read_body_next_inv E hlen hi hb) h
      · rw [hb] at h
        cases h
        exact read_body_done_outcome E hi hpos hb
      · rw [hb] at h; cases h
    · simp only [read_loop, hpos, if_false] at h
      cases h
      have h0 : s.len = 0 := by omega
      have := hi.sum
      refine .success rfl ?_ ?_
      · simp [ReadState.returns]; omega
      · simp [ReadState.returns, hi.count]; omega

theorem read_loop_conf (E : Codes) {conf₀ : mbedtls_ssl_config} :
    ∀ (fuel : Nat) (s : ReadState) (r : ReadResult), ReadConfInv conf₀ s →
      read_loop E fuel s = some r →
      r.conf = conf₀ ∧ ReadCalls conf₀.read_timeout r.trace := by
  intro fuel
  induction fuel with
  | zero => intro s r _ h; simp [read_loop] at h
  | succ n ih =>
    intro s r hi h
    by_cases hpos : 0 < s.len
    · simp only [read_loop, hpos, if_true] at h
      rcases hb : read_body E s with s' | r' | _
      · rw [hb] at h
        exact ih s' r (read_body_next_conf_inv E hi hb) h
      · rw [hb] at h
        cases h
        exact read_body_done_conf E hi hb
      · rw [hb] at h; cases h
    · simp only [read_loop, hpos, if_false] at h
      cases h
      exact ⟨hi.conf, hi.calls⟩

theorem read_reach_inv (E : Codes) {len : Nat} (hlen : len < SIZE_T_MOD)
    {s₀ s : ReadState} (h₀ : ReadInv len s₀) (h : ReadReach E s₀ s) : ReadInv len s := by
  induction h with
  | start => exact h₀
  | step _ _ hb ih => exact read_body_next_inv E hlen ih hb

theorem read_reach_conf_inv (E : Codes) {conf₀ : mbedtls_ssl_config}
    {s₀ s : ReadState} (h₀ : ReadConfInv conf₀ s₀) (h : ReadReach E s₀ s) :
    ReadConfInv conf₀ s := by
  induction h with
  | start => exact h₀
  | step _ _ hb ih => exact read_body_next_conf_inv E ih hb

/-- From a loop state that the run passes through, the loop gives what it gives from
the first one. -/
theorem read_reach_loop (E : Codes) {s₀ s : ReadState} (h : ReadReach E s₀ s) :
    read_loop E (s.recvs.length + 1) s = read_loop E (s₀.recvs.length + 1) s₀ := by
  induction h with
  | start => rfl
  | @step s s' _ hpos hb ih =>
    rw [← ih]
    obtain ⟨ret, hs⟩ := read_body_next_recvs E hb
    rw [hs, List.length_cons]
    conv_rhs => rw [read_loop]
    simp only [gt_iff_lt, hpos, if_true, hb]

/-! ## Sample runs -/

theorem stalled_write_reach :
    WriteReach mbedtls (write_init 10000 [4000, -0x6880, -0x6880] [false, true])
      stalled_write :=
  .step (.step .start (by decide) rfl) (by decide) rfl

theorem stalled_write_run :
    iot_tls_write mbedtls 10000 [4000, -0x6880, -0x6880] [false, true] = some
      { ret := .NETWORK_SSL_WRITE_TIMEOUT_ERROR, written_len := some 4000,
        sends := [], expiries := [], trace := stalled_write.trace ++
          [Event.ssl_write 4000 6000 (-0x6880),
           Event.has_timer_expired TimerId.writeTimer true] } := rfl

theorem stalled_read_reach :
    ReadReach mbedtls (read_init demo_conf 5 [2, -0x6800] [7, 7, 0, 0] [true]) stalled_read :=
  .step .start (by decide) rfl

theorem stalled_read_run :
    iot_tls_read mbedtls demo_conf 5 [2, -0x6800] [7, 7, 0, 0] [true] = some run_read_timeout :=
  rfl

theorem run_connect_verified_eq :
    iot_tls_connect demo_build mbedtls (demo_library 0) (some demo_network) none =
      some run_connect_verified := by decide

theorem run_connect_unverified_eq :
    iot_tls_connect demo_build mbedtls (demo_library 8) (some demo_network) none =
      some run_connect_unverified := by decide

theorem run_connect_skipped_eq :
    iot_tls_connect demo_build mbedtls (demo_library 8) (some demo_network)
      (some unverified_params) = some run_connect_skipped := by decide

theorem demo_pre_handshake_ok (flags : Nat) (P : TLSConnectParams) :
    PreHandshakeOk demo_build mbedtls (demo_library flags) P := by
  refine ⟨rfl, ?_, ?_, ?_, rfl, rfl, rfl, rfl, fun _ => rfl, rfl, rfl⟩
  · unfold load_root_ca
    split_ifs <;> exact not_lt.mpr le_rfl
  · unfold load_client_cert
    simp only
    split_ifs <;> rfl
  · unfold parse_private_key
    simp only
    split_ifs <;> first | rfl | (rename_i h _; exact absurd h.1 (by decide))

/-! ## The claims -/

/-- C1: when `iot_tls_write` returns `SUCCESS` for a request of `len` bytes, the
count it stores through `written_len` is `len`, the positive counts that
`mbedtls_ssl_write` gave during the call sum to `len`, and every attempt was offered
the unsent rest of the buffer: it starts where the counts before it end and reaches
to the end of the `len` bytes. -/
theorem iot_tls_write_success_complete (E : Codes) (len : Nat) (sends : List Int)
    (expiries : List Bool) (r : WriteResult) (hlen : len < SIZE_T_MOD)
    (h : iot_tls_write E len sends expiries = some r) (hs : r.ret = .SUCCESS) :
    r.written_len = some len ∧ transferred r.trace = len ∧
    ∀ pre pMsg l ret post, r.trace = pre ++ Event.ssl_write pMsg l ret :: post →
      pMsg = transferred pre ∧ pMsg + l = len := by
  have := write_loop_outcome E hlen _ _ r (write_init_inv len sends expiries) h
  rcases this with ⟨_, hw, ht, ho⟩ | ⟨hr, _, _, _⟩ | ⟨hr, _⟩
  · exact ⟨hw, ht, ho⟩
  · rw [hr] at hs; cases hs
  · rw [hr] at hs; cases hs

theorem iot_tls_write_success_complete_witness :
    iot_tls_write mbedtls 10 [4, -0x6880, 6] [false] = some run_write_success ∧
    run_write_success.ret = .SUCCESS ∧
    (run_write_success.written_len = some 10 ∧ transferred run_write_success.trace = 10 ∧
    ∀ pre pMsg l ret post, run_write_success.trace = pre ++ Event.ssl_write pMsg l ret :: post →
      pMsg = transferred pre ∧ pMsg + l = 10) :=
  ⟨by decide, rfl,
   iot_tls_write_success_complete mbedtls 10 [4, -0x6880, 6] [false] run_write_success
     (by decide) (by decide) rfl⟩

/-- C2: when, at a loop state that a write of `len` bytes passes through,
`mbedtls_ssl_write` gives "want read" or "want write" and the retry timer reads
expired, `iot_tls_write` returns `NETWORK_SSL_WRITE_TIMEOUT_ERROR` at once and stores
through `written_len` the local counter, which is the sum of the positive counts
`mbedtls_ssl_write` gave so far in the call. -/
theorem iot_tls_write_timeout_partial (E : Codes) (len : Nat) (sends : List Int)
    (expiries : List Bool) (s : WriteState) (ret : Int) (rest : List Int)
    (erest : List Bool) (hlen : len < SIZE_T_MOD)
    (hreach : WriteReach E (write_init len sends expiries) s) (hpos : 0 < s.len)
    (hsend : s.sends = ret :: rest)
    (hret : ret = E.MBEDTLS_ERR_SSL_WANT_READ ∨ ret = E.MBEDTLS_ERR_SSL_WANT_WRITE)
    (hexp : s.expiries = true :: erest) :
    iot_tls_write E len sends expiries = some
      { ret := .NETWORK_SSL_WRITE_TIMEOUT_ERROR, written_len := some (transferred s.trace),
        sends := rest, expiries := erest,
        trace := s.trace ++ [Event.ssl_write s.pMsg s.len ret,
          Event.has_timer_expired TimerId.writeTimer true] } ∧
    s.txLen = transferred s.trace := by
  have hi := write_reach_inv E hlen (write_init_inv len sends expiries) hreach
  have hl := write_reach_loop E hreach
  have hneg : ¬ 0 < ret := by
    rcases hret with h | h
    · have := E.want_read_neg; omega
    · have := E.want_write_neg; omega
  refine ⟨?_, hi.count.symm⟩
  unfold iot_tls_write
  have hinit : (write_init len sends expiries).sends.length = sends.length := rfl
  rw [hinit] at hl
  rw [← hl, write_loop]
  simp [hpos, write_body, hsend, hneg, hret, hexp, WriteState.returns, hi.count]

theorem iot_tls_write_timeout_partial_witness :
    iot_tls_write mbedtls 10000 [4000, -0x6880, -0x6880] [false, true] = some
      { ret := .NETWORK_SSL_WRITE_TIMEOUT_ERROR, written_len := some 4000,
        sends := [], expiries := [], trace := stalled_write.trace ++
          [Event.ssl_write 4000 6000 (-0x6880),
           Event.has_timer_expired TimerId.writeTimer true] } ∧
    stalled_write.txLen = 4000 :=
  iot_tls_write_timeout_partial mbedtls 10000 [4000, -0x6880, -0x6880] [false, true]
    stalled_write (-0x6880) [] [] (by decide)
    (.step (.step .start (by decide) rfl) (by decide) rfl)
    (by decide) rfl (by decide) rfl

/-- C3: when, at a loop state that a read passes through, `mbedtls_ssl_read` gives
"want read", "want write" or the receive timeout and the retry timer reads expired,
`iot_tls_read` returns at once; it stores through `read_len` the local counter, which
is the sum of the positive counts received so far in the call; the result is
`NETWORK_SSL_NOTHING_TO_READ` exactly when that sum is zero and
`NETWORK_SSL_READ_TIMEOUT_ERROR` exactly when it is positive. -/
theorem iot_tls_read_expiry_result (E : Codes) (conf : mbedtls_ssl_config) (len : Nat)
    (recvs : List Int) (lefts : List Nat) (expiries : List Bool) (s : ReadState)
    (ret : Int) (rest : List Int) (timeout : Nat) (lrest : List Nat) (evs : List Event)
    (erest : List Bool) (hlen : len < SIZE_T_MOD)
    (hreach : ReadReach E (read_init conf len recvs lefts expiries) s) (hpos : 0 < s.len)
    (hrecv : s.recvs = ret :: rest)
    (hleft : MAX_1_MIN_left_ms s.read_timeout s.lefts = some (timeout, lrest, evs))
    (hret : ret = E.MBEDTLS_ERR_SSL_WANT_READ ∨ ret = E.MBEDTLS_ERR_SSL_WANT_WRITE ∨
      ret = E.MBEDTLS_ERR_SSL_TIMEOUT)
    (hexp : s.expiries = true :: erest) :
    ∃ r, iot_tls_read E conf len recvs lefts expiries = some r ∧
      r.read_len = some (transferred s.trace) ∧ s.rxLen = transferred s.trace ∧
      (r.ret = .NETWORK_SSL_NOTHING_TO_READ ↔ transferred s.trace = 0) ∧
      (r.ret = .NETWORK_SSL_READ_TIMEOUT_ERROR ↔ 0 < transferred s.trace) ∧
      r.recvs = rest ∧
      r.trace = read_attempt_trace s evs timeout ret ++
        [Event.has_timer_expired TimerId.readTimer true] := by
  have hi := read_reach_inv E hlen (read_init_inv conf len recvs lefts expiries) hreach
  have hl := read_reach_loop E hreach
  have hneg : ¬ 0 < ret := by
    rcases hret with h | h | h
    · have := E.want_read_neg; omega
    · have := E.want_write_neg; omega
    · have := E.timeout_neg; omega
  have hinit : (read_init conf len recvs lefts expiries).recvs.length = recvs.length := rfl
  rw [hinit] at hl
  unfold iot_tls_read
  rw [← hl, read_loop]
  by_cases h0 : s.rxLen = 0
  · have ht : transferred s.trace = 0 := by rw [hi.count, h0]
    refine ⟨_, by simp only [gt_iff_lt, hpos, if_true, read_body, hrecv, hleft, hneg, hret,
      hexp, if_false, h0]; rfl, ?_⟩
    simp [ReadState.returns, ht, h0, read_attempt_trace, mbedtls_ssl_conf_read_timeout]
  · have ht : transferred s.trace = s.rxLen := hi.count
    refine ⟨_, by simp only [gt_iff_lt, hpos, if_true, read_body, hrecv, hleft, hneg, hret,
      hexp, if_false, h0]; rfl, ?_⟩
    simp [ReadState.returns, ht, h0, read_attempt_trace, mbedtls_ssl_conf_read_timeout]
    omega

theorem iot_tls_read_expiry_result_witness :
    ReadReach mbedtls (read_init demo_conf 5 [2, -0x6800] [7, 7, 0, 0] [true]) stalled_read ∧
    MAX_1_MIN_left_ms stalled_read.read_timeout stalled_read.lefts =
      some (1, [], [Event.left_ms 0, Event.left_ms 0]) ∧
    ∃ r, iot_tls_read mbedtls demo_conf 5 [2, -0x6800] [7, 7, 0, 0] [true] = some r ∧
      r.read_len = some (transferred stalled_read.trace) ∧
      stalled_read.rxLen = transferred stalled_read.trace ∧
      (r.ret = .NETWORK_SSL_NOTHING_TO_READ ↔ transferred stalled_read.trace = 0) ∧
      (r.ret = .NETWORK_SSL_READ_TIMEOUT_ERROR ↔ 0 < transferred stalled_read.trace) ∧
      r.recvs = [] ∧
      r.trace = read_attempt_trace stalled_read [Event.left_ms 0, Event.left_ms 0] 1
          (-0x6800) ++ [Event.has_timer_expired TimerId.readTimer true] :=
  ⟨stalled_read_reach, rfl,
   iot_tls_read_expiry_result mbedtls demo_conf 5 [2, -0x6800] [7, 7, 0, 0] [true]
     stalled_read (-0x6800) [] 1 [] [Event.left_ms 0, Event.left_ms 0] [] (by decide)
     stalled_read_reach (by decide) rfl rfl (by decide) rfl⟩

/-- C4, as the claim states it, fails: in `iot_tls_write` a count larger than the
remaining length is reported with `NETWORK_SSL_WRITE_ERROR`, the very error that a
transport failure of `mbedtls_ssl_write` is reported with. -/
theorem overrun_error_not_distinct :
    iot_tls_write mbedtls 1 [2] [] = some run_write_overrun ∧
    iot_tls_write mbedtls 1 [-1] [] = some run_write_error ∧
    run_write_overrun.ret = run_write_error.ret := by decide

/-- C4, amended: when, at a loop state that the call passes through, the primitive
gives a positive count larger than the remaining length, `iot_tls_write` and
`iot_tls_read` return at once with an error: no further attempt is made, the retry
timer is not read, no count is stored and the excess is not added to the counter.
`iot_tls_write` reports it with `NETWORK_SSL_WRITE_ERROR`, the error of a transport
failure. -/
theorem overrun_fails_at_once (E : Codes) :
    (∀ (len : Nat) (sends : List Int) (expiries : List Bool) (s : WriteState) (ret : Int)
      (rest : List Int), WriteReach E (write_init len sends expiries) s → 0 < s.len →
      s.sends = ret :: rest → 0 < ret → s.len < ret.toNat →
      iot_tls_write E len sends expiries = some
        { ret := .NETWORK_SSL_WRITE_ERROR, written_len := none, sends := rest,
          expiries := s.expiries,
          trace := s.trace ++ [Event.ssl_write s.pMsg s.len ret] }) ∧
    (∀ (conf : mbedtls_ssl_config) (len : Nat) (recvs : List Int) (lefts : List Nat)
      (expiries : List Bool) (s : ReadState) (ret : Int) (rest : List Int) (timeout : Nat)
      (lrest : List Nat) (evs : List Event),
      ReadReach E (read_init conf len recvs lefts expiries) s →
      0 < s.len → s.recvs = ret :: rest →
      MAX_1_MIN_left_ms s.read_timeout s.lefts = some (timeout, lrest, evs) → 0 < ret →
      s.len < ret.toNat →
      ∃ r, iot_tls_read E conf len recvs lefts expiries = some r ∧ r.ret ≠ .SUCCESS ∧
        r.read_len = none ∧ r.recvs = rest ∧ r.expiries = s.expiries ∧
        r.trace = read_attempt_trace s evs timeout ret) := by
  constructor
  · intro len sends expiries s ret rest hreach hpos hsend hret hover
    have hl := write_reach_loop E hreach
    have hinit : (write_init len sends expiries).sends.length = sends.length := rfl
    rw [hinit] at hl
    unfold iot_tls_write
    rw [← hl, write_loop]
    simp [hpos, write_body, hsend, hret, hover, WriteState.returns]
  · intro conf len recvs lefts expiries s ret rest timeout lrest evs hreach hpos hrecv hleft
      hret hover
    have hl := read_reach_loop E hreach
    have hinit : (read_init conf len recvs lefts expiries).recvs.length = recvs.length := rfl
    rw [hinit] at hl
    unfold iot_tls_read
    rw [← hl, read_loop]
    simp only [gt_iff_lt, hpos, if_true, read_body, hrecv, hleft, hret, hover]
    exact ⟨_, rfl, by
      simp [ReadState.returns, read_attempt_trace, mbedtls_ssl_conf_read_timeout]⟩

theorem overrun_fails_at_once_witness :
    iot_tls_write mbedtls 10000 [4000, -0x6880, 6001] [false, true] = some
      { ret := .NETWORK_SSL_WRITE_ERROR, written_len := none, sends := [],
        expiries := [true],
        trace := stalled_write.trace ++ [Event.ssl_write 4000 6000 6001] } ∧
    ∃ r, iot_tls_read mbedtls demo_conf 5 [2, 4] [7, 7, 0, 0] [true] = some r ∧
      r.ret ≠ .SUCCESS ∧ r.read_len = none ∧ r.recvs = [] ∧ r.expiries = [true] ∧
      r.trace = read_attempt_trace { stalled_read with recvs := [4] }
        [Event.left_ms 0, Event.left_ms 0] 1 4 :=
  ⟨(overrun_fails_at_once mbedtls).1 10000 [4000, -0x6880, 6001] [false, true]
      { stalled_write with sends := [6001] } 6001 []
      (.step (.step .start (by decide) rfl) (by decide) rfl) (by decide) rfl (by decide)
      (by decide),
   (overrun_fails_at_once mbedtls).2 demo_conf 5 [2, 4] [7, 7, 0, 0] [true]
      { stalled_read with recvs := [4] } 4 [] 1 [] [Event.left_ms 0, Event.left_ms 0]
      (.step .start (by decide) rfl) (by decide) rfl rfl (by decide) (by decide)⟩

/-- C5: for a requested length `len` and all scripts of primitive results and timer
readings, a count that `iot_tls_write` or `iot_tls_read` stores for the caller is at
most `len`, and at every loop state that a call passes through the local counter plus
the remaining length is `len`. -/
theorem transferred_count_bounded (E : Codes) (len : Nat) (hlen : len < SIZE_T_MOD) :
    (∀ (sends : List Int) (expiries : List Bool) (r : WriteResult) (n : Nat),
      iot_tls_write E len sends expiries = some r → r.written_len = some n → n ≤ len) ∧
    (∀ (sends : List Int) (expiries : List Bool) (s : WriteState),
      WriteReach E (write_init len sends expiries) s → s.txLen + s.len = len) ∧
    (∀ (conf : mbedtls_ssl_config) (recvs : List Int) (lefts : List Nat)
      (expiries : List Bool) (r : ReadResult) (n : Nat),
      iot_tls_read E conf len recvs lefts expiries = some r → r.read_len = some n →
      n ≤ len) ∧
    (∀ (conf : mbedtls_ssl_config) (recvs : List Int) (lefts : List Nat)
      (expiries : List Bool) (s : ReadState),
      ReadReach E (read_init conf len recvs lefts expiries) s → s.rxLen + s.len = len) := by
  refine ⟨?_, ?_, ?_, ?_⟩
  · intro sends expiries r n h hn
    rcases write_loop_outcome E hlen _ _ r (write_init_inv len sends expiries) h with
      ⟨_, hw, _, _⟩ | ⟨_, hw, hlt, _⟩ | ⟨_, hw⟩
    · rw [hw] at hn; cases hn; exact le_rfl
    · rw [hw] at hn; cases hn; exact hlt.le
    · rw [hw] at hn; cases hn
  · intro sends expiries s hreach
    exact (write_reach_inv E hlen (write_init_inv len sends expiries) hreach).sum
  · intro conf recvs lefts expiries r n h hn
    rcases read_loop_outcome E hlen _ _ r (read_init_inv conf len recvs lefts expiries) h with
      ⟨_, hw, _⟩ | ⟨_, hw, _⟩ | ⟨_, hw, _, hlt⟩ | ⟨_, hw⟩ | ⟨_, hw⟩
    · rw [hw] at hn; cases hn; exact le_rfl
    · rw [hw] at hn; cases hn; exact Nat.zero_le _
    · rw [hw] at hn; cases hn; exact hlt.le
    · rw [hw] at hn; cases hn
    · rw [hw] at hn; cases hn
  · intro conf recvs lefts expiries s hreach
    exact (read_reach_inv E hlen (read_init_inv conf len recvs lefts expiries) hreach).sum

theorem transferred_count_bounded_witness :
    10000 < SIZE_T_MOD ∧ 4000 ≤ 10000 ∧ stalled_write.txLen + stalled_write.len = 10000 ∧
    2 ≤ 5 ∧ stalled_read.rxLen + stalled_read.len = 5 :=
  ⟨by decide,
   (transferred_count_bounded mbedtls 10000 (by decide)).1 _ _ _ 4000 stalled_write_run rfl,
   (transferred_count_bounded mbedtls 10000 (by decide)).2.1 _ _ _ stalled_write_reach,
   (transferred_count_bounded mbedtls 5 (by decide)).2.2.1 _ _ _ _ _ 2 stalled_read_run rfl,
   (transferred_count_bounded mbedtls 5 (by decide)).2.2.2 _ _ _ _ _ stalled_read_reach⟩

/-- C6 fails on the code: on a session with read deadline 3, when the caller's timer
reads 1, 1, 0, 0 over the four evaluations of `left_ms(timer)` in
`MAX(1, MIN(read_timeout, left_ms(timer)))`, the value of the expression is 0, and
`iot_tls_read` installs the read deadline 0 for its receive attempt: not
`max 1 (min 3 r)` for any reading `r`, and not the floor 1 at a reading of 0. -/
theorem read_deadline_zero_on_expiring_timer :
    MAX_1_MIN_left_ms 3 [1, 1, 0, 0] = some (0, [],
      [Event.left_ms 1, Event.left_ms 1, Event.left_ms 0, Event.left_ms 0]) ∧
    iot_tls_read mbedtls demo_conf 1 [-0x6800] [1, 1, 0, 0] [true] = some
      { ret := .NETWORK_SSL_NOTHING_TO_READ, read_len := some 0, conf := demo_conf,
        recvs := [], lefts := [], expiries := [],
        trace := [Event.countdown_ms TimerId.readTimer 10, Event.left_ms 1, Event.left_ms 1,
          Event.left_ms 0, Event.left_ms 0, Event.ssl_conf_read_timeout 0,
          Event.ssl_read 0 0 1 (-0x6800), Event.ssl_conf_read_timeout 3,
          Event.has_timer_expired TimerId.readTimer true] } ∧
    (∀ r : Nat, 0 ≠ max 1 (min demo_conf.read_timeout r)) := by
  refine ⟨rfl, rfl, ?_⟩
  intro r
  omega

/-- C7: whatever `iot_tls_read` returns (also for `len = 0`), the configuration after
the call is the configuration at entry, read deadline and every other field; it is so
at every loop state the call passes through; and each receive attempt is followed at
once by the installation of the read deadline of entry. -/
theorem iot_tls_read_restores_conf (E : Codes) (conf : mbedtls_ssl_config) (len : Nat)
    (recvs : List Int) (lefts : List Nat) (expiries : List Bool) :
    (∀ r, iot_tls_read E conf len recvs lefts expiries = some r →
      r.conf = conf ∧
      ∀ pre t pMsg l ret post, r.trace = pre ++ Event.ssl_read t pMsg l ret :: post →
        ∃ post', post = Event.ssl_conf_read_timeout conf.read_timeout :: post') ∧
    (∀ s, ReadReach E (read_init conf len recvs lefts expiries) s → s.conf = conf) := by
  constructor
  · intro r hr
    obtain ⟨hc, hcalls⟩ :=
      read_loop_conf E _ _ r (read_init_conf_inv conf len recvs lefts expiries) hr
    refine ⟨hc, ?_⟩
    intro pre t pMsg l ret post hdec
    obtain ⟨_, post', _, hpost⟩ := hcalls pre t pMsg l ret post hdec
    exact ⟨post', hpost⟩
  · intro s hreach
    exact (read_reach_conf_inv E (read_init_conf_inv conf len recvs lefts expiries)
      hreach).conf

theorem iot_tls_read_restores_conf_witness :
    iot_tls_read mbedtls demo_conf 5 [2, -0x6800] [7, 7, 0, 0] [true] = some run_read_timeout ∧
    run_read_timeout.conf = demo_conf ∧ stalled_read.conf = demo_conf :=
  ⟨stalled_read_run,
   ((iot_tls_read_restores_conf mbedtls demo_conf 5 [2, -0x6800] [7, 7, 0, 0] [true]).1
      run_read_timeout stalled_read_run).1,
   (iot_tls_read_restores_conf mbedtls demo_conf 5 [2, -0x6800] [7, 7, 0, 0] [true]).2
      stalled_read stalled_read_reach⟩

/-! ## `iot_tls_connect` -/

/-- What the handshake loop leaves: the trace grows by the results of the handshake
steps taken; the loop completes when a step gives 0 after steps that wanted to read or
write, and fails on the first other result. -/
theorem handshake_loop_spec (E : Codes) :
    ∀ (hs : List Int) (tr : List Event) (b : Bool) (tr' : List Event),
      handshake_loop E hs tr = some (b, tr') →
      ∃ rets last, tr' = tr ++ (rets ++ [last]).map Event.ssl_handshake ∧
        (∀ x ∈ rets, x ≠ 0 ∧ (x = E.MBEDTLS_ERR_SSL_WANT_READ ∨
          x = E.MBEDTLS_ERR_SSL_WANT_WRITE)) ∧
        (b = true → last = 0) ∧
        (b = false → last ≠ 0 ∧ last ≠ E.MBEDTLS_ERR_SSL_WANT_READ ∧
          last ≠ E.MBEDTLS_ERR_SSL_WANT_WRITE) := by
  intro hs
  induction hs with
  | nil => intro tr b tr' h; simp [handshake_loop] at h
  | cons ret rest ih =>
    intro tr b tr' h
    unfold handshake_loop at h
    by_cases h0 : ret = 0
    · simp only [h0, ne_eq, not_true_eq_false, if_false, Option.some.injEq,
        Prod.mk.injEq] at h
      obtain ⟨hb, htr⟩ := h
      subst hb htr
      exact ⟨[], 0, by simp, by simp, by simp, by simp⟩
    · by_cases ht : ret ≠ E.MBEDTLS_ERR_SSL_WANT_READ ∧ ret ≠ E.MBEDTLS_ERR_SSL_WANT_WRITE
      · simp only [ne_eq, h0, not_false_eq_true, if_true, ht, and_self, Option.some.injEq,
          Prod.mk.injEq] at h
        obtain ⟨hb, htr⟩ := h
        subst hb htr
        exact ⟨[], ret, by simp, by simp, by simp, by simp [h0, ht.1, ht.2]⟩
      · simp only [ne_eq, h0, not_false_eq_true, if_true] at h
        rw [if_neg ht] at h
        obtain ⟨rets, last, htr, hall, hT, hF⟩ := ih _ b tr' h
        refine ⟨ret :: rets, last, by simp [htr], ?_, hT, hF⟩
        intro x hx
        rcases List.mem_cons.mp hx with rfl | hx
        · refine ⟨h0, ?_⟩
          by_contra hc
          exact ht ⟨fun h => hc (.inl h), fun h => hc (.inr h)⟩
        · exact hall x hx

theorem SessionCases.prepend {K : Kconfig} {E : Codes} {L : Library} {net net₀ : Network}
    {tr evs : List Event} {r : ConnectResult} (h : SessionCases K E L net (tr ++ evs) r)
    (hp : net.tlsConnectParams = net₀.tlsConnectParams)
    (hf : net.tlsDataParams.flags = net₀.tlsDataParams.flags)
    (hevs : ∀ ret, Event.ssl_handshake ret ∉ evs) : SessionCases K E L net₀ tr r := by
  rcases h with ⟨hne, tr₁, htr, hno⟩ | ⟨net', tr₁, b, tr₂, hp', hf', hno, hl, hr⟩
  · refine .inl ⟨hne, evs ++ tr₁, by rw [htr, List.append_assoc], ?_⟩
    intro ret hmem
    rcases List.mem_append.mp hmem with hm | hm
    · exact hevs ret hm
    · exact hno ret hm
  · refine .inr ⟨net', evs ++ tr₁, b, tr₂, hp'.trans hp, hf'.trans hf, ?_, ?_, hr⟩
    · intro ret hmem
      rcases List.mem_append.mp hmem with hm | hm
      · exact hevs ret hm
      · exact hno ret hm
    · rw [← List.append_assoc]; exact hl

theorem SessionCases.fail {K : Kconfig} {E : Codes} {L : Library} {net net' : Network}
    {tr evs : List Event} {e : IoT_Error_t} {r : ConnectResult}
    (h : connect_fail e net' (tr ++ evs) = some r) (he : e ≠ .SUCCESS)
    (hevs : ∀ ret, Event.ssl_handshake ret ∉ evs) : SessionCases K E L net tr r := by
  simp only [connect_fail, Option.some.injEq] at h
  subst h
  exact .inl ⟨he, evs, rfl, hevs⟩

theorem connect_handshake_cases (K : Kconfig) (E : Codes) (L : Library) (net : Network)
    (tr : List Event) (r : ConnectResult) (h : connect_handshake K E L net tr = some r) :
    SessionCases K E L net tr r := by
  unfold connect_handshake at h
  rcases hl : handshake_loop E L.ssl_handshake tr with _ | ⟨b, tr₂⟩
  · rw [hl] at h; cases h
  · rw [hl] at h
    refine .inr ⟨net, [], b, tr₂, rfl, rfl, by simp, by simpa using hl, ?_⟩
    cases b
    · simp only [connect_fail, Option.some.injEq] at h
      simp [← h]
    · simp only [Option.some.injEq] at h
      simp [← h]

theorem connect_ssl_setup_cases (K : Kconfig) (E : Codes) (L : Library) (net : Network)
    (tr : List Event) (r : ConnectResult) (h : connect_ssl_setup K E L net tr = some r) :
    SessionCases K E L net tr r := by
  unfold connect_ssl_setup at h
  simp only at h
  split_ifs at h
  all_goals (try rw [List.append_assoc] at h)
  all_goals first
    | exact SessionCases.fail h (by decide) (by simp)
    | exact (connect_handshake_cases K E L _ _ r h).prepend rfl rfl (by simp)

theorem connect_setup_cases (K : Kconfig) (E : Codes) (L : Library) (net : Network)
    (tr : List Event) (r : ConnectResult) (h : connect_setup K E L net tr = some r) :
    SessionCases K E L net tr r := by
  unfold connect_setup at h
  simp only at h
  split_ifs at h
  all_goals (try rw [List.append_assoc] at h)
  all_goals first
    | exact SessionCases.fail h (by decide) (by simp)
    | exact (connect_ssl_setup_cases K E L _ _ r h).prepend rfl rfl (by simp)

theorem connect_configure_cases (K : Kconfig) (E : Codes) (L : Library) (net : Network)
    (tr : List Event) (r : ConnectResult) (h : connect_configure K E L net tr = some r) :
    SessionCases K E L net tr r := by
  unfold connect_configure at h
  simp only at h
  split_ifs at h
  all_goals (try rw [List.append_assoc] at h)
  all_goals first
    | exact SessionCases.fail h (by decide) (by simp)
    | exact (connect_setup_cases K E L _ _ r h).prepend rfl rfl (by simp)

theorem connect_session_cases (K : Kconfig) (E : Codes) (L : Library) (net : Network)
    (tr : List Event) (r : ConnectResult) (h : connect_session K E L net tr = some r) :
    SessionCases K E L net tr r := by
  unfold connect_session at h
  simp only at h
  split_ifs at h
  all_goals (try rw [List.append_assoc] at h)
  all_goals first
    | exact SessionCases.fail h (by decide) (by simp)
    | exact (connect_configure_cases K E L _ _ r h).prepend rfl rfl (by simp)

theorem load_root_ca_credential (L : Library) (loc : CString) :
    ∀ e ∈ (load_root_ca L loc).2, e.isCredential = true := by
  unfold load_root_ca
  split_ifs <;> simp [Event.isCredential]

theorem load_client_cert_credential (K : Kconfig) (L : Library) (loc : CString) :
    ∀ e ∈ (load_client_cert K L loc).2, e.isCredential = true := by
  unfold load_client_cert
  simp only
  split_ifs <;> simp [Event.isCredential]

theorem parse_private_key_credential (K : Kconfig) (E : Codes) (L : Library) (loc : CString) :
    ∀ e ∈ (parse_private_key K E L loc).2, e.isCredential = true := by
  unfold parse_private_key
  simp only
  split_ifs <;> simp [Event.isCredential]

/-- The part of `iot_tls_connect` before the socket is asked for: the seeding of the
random generator and the three credentials, in this order. -/
theorem iot_tls_connect_credentials (K : Kconfig) (E : Codes) (L : Library) (net : Network)
    (params : Option TLSConnectParams) :
    iot_tls_connect K E L (some net) params =
      let net₀ := connect_entry net params
      let P := net₀.tlsConnectParams
      let root := load_root_ca L P.pRootCALocation
      let cert := load_client_cert K L P.pDeviceCertLocation
      let key := parse_private_key K E L P.pDevicePrivateKeyLocation
      let seed := Event.ctr_drbg_seed L.ctr_drbg_seed
      if L.ctr_drbg_seed ≠ 0 then
        connect_fail .NETWORK_MBEDTLS_ERR_CTR_DRBG_ENTROPY_SOURCE_FAILED net₀ [seed]
      else if root.1 < 0 then
        connect_fail .NETWORK_X509_ROOT_CRT_PARSE_ERROR net₀ ([seed] ++ root.2)
      else if cert.1 ≠ 0 then
        connect_fail .NETWORK_X509_DEVICE_CRT_PARSE_ERROR net₀ ([seed] ++ root.2 ++ cert.2)
      else if key.1 ≠ 0 then
        connect_fail .NETWORK_PK_PRIVATE_KEY_PARSE_ERROR net₀
          ([seed] ++ root.2 ++ cert.2 ++ key.2)
      else
        connect_session K E L net₀ ([seed] ++ root.2 ++ cert.2 ++ key.2) := by
  cases params <;> rfl

/-- The trace of `iot_tls_connect` up to the socket has no handshake step. -/
theorem credentials_no_handshake (K : Kconfig) (E : Codes) (L : Library)
    (P : TLSConnectParams) (ret : Int) :
    Event.ssl_handshake ret ∉ [Event.ctr_drbg_seed L.ctr_drbg_seed] ++
      (load_root_ca L P.pRootCALocation).2 ++ (load_client_cert K L P.pDeviceCertLocation).2 ++
      (parse_private_key K E L P.pDevicePrivateKeyLocation).2 := by
  intro hmem
  simp only [List.mem_append, List.mem_singleton] at hmem
  rcases hmem with ((h | h) | h) | h
  · cases h
  · simpa [Event.isCredential] using load_root_ca_credential L _ _ h
  · simpa [Event.isCredential] using load_client_cert_credential K L _ _ h
  · simpa [Event.isCredential] using parse_private_key_credential K E L _ _ h

theorem connect_verify_handshake_mem (K : Kconfig) (L : Library) (net : Network)
    (tr : List Event) (ret : Int) :
    Event.ssl_handshake ret ∈ (connect_verify K L net tr).trace ↔
      Event.ssl_handshake ret ∈ tr := by
  unfold connect_verify
  simp only
  split_ifs <;> simp

/-- The three ways through `iot_tls_connect` on a transport object: it fails before
the handshake loop; or the handshake loop fails on a result that is neither 0 nor
"want read" nor "want write"; or the handshake loop completes and the part after it
decides. -/
theorem iot_tls_connect_cases (K : Kconfig) (E : Codes) (L : Library) (net : Network)
    (params : Option TLSConnectParams) (r : ConnectResult)
    (h : iot_tls_connect K E L (some net) params = some r) :
    (r.ret ≠ .SUCCESS ∧ ∀ ret, Event.ssl_handshake ret ∉ r.trace) ∨
    (r.ret = .SSL_CONNECTION_ERROR ∧ Event.ssl_handshake 0 ∉ r.trace ∧
      ∃ ret, Event.ssl_handshake ret ∈ r.trace) ∨
    ∃ net' tr, net'.tlsConnectParams = (connect_entry net params).tlsConnectParams ∧
      net'.tlsDataParams.flags = net.tlsDataParams.flags ∧
      r = connect_verify K L net' tr ∧ Event.ssl_handshake 0 ∈ tr ∧
      ∀ ret, Event.ssl_handshake ret ∈ tr →
        ret = 0 ∨ ret = E.MBEDTLS_ERR_SSL_WANT_READ ∨ ret = E.MBEDTLS_ERR_SSL_WANT_WRITE := by
  rw [iot_tls_connect_credentials] at h
  simp only at h
  have hno := credentials_no_handshake K E L (connect_entry net params).tlsConnectParams
  split_ifs at h
  · simp only [connect_fail, Option.some.injEq] at h
    subst h
    exact .inl ⟨by simp, by simp⟩
  · simp only [connect_fail, Option.some.injEq] at h
    subst h
    refine .inl ⟨by simp, fun ret hm => hno ret ?_⟩
    simp only [List.mem_append] at hm ⊢
    tauto
  · simp only [connect_fail, Option.some.injEq] at h
    subst h
    refine .inl ⟨by simp, fun ret hm => hno ret ?_⟩
    simp only [List.mem_append] at hm ⊢
    tauto
  · simp only [connect_fail, Option.some.injEq] at h
    subst h
    exact .inl ⟨by simp, hno⟩
  · rcases connect_session_cases K E L _ _ r h with
      ⟨hne, tr₁, htr, hno₁⟩ | ⟨net', tr₁, b, tr₂, hp, hf, hno₁, hl, hr⟩
    · refine .inl ⟨hne, fun ret hm => ?_⟩
      rw [htr] at hm
      rcases List.mem_append.mp hm with hm | hm
      · exact hno ret hm
      · exact hno₁ ret hm
    · obtain ⟨rets, last, htr₂, hall, hT, hF⟩ := handshake_loop_spec E _ _ b tr₂ hl
      have hmem : ∀ ret, Event.ssl_handshake ret ∈ tr₂ ↔ ret ∈ rets ∨ ret = last := by
        intro ret
        rw [htr₂]
        constructor
        · intro hm
          rcases List.mem_append.mp hm with hm | hm
          · rcases List.mem_append.mp hm with hm | hm
            · exact absurd hm (hno ret)
            · exact absurd hm (hno₁ ret)
          · simpa using hm
        · intro hm
          refine List.mem_append.mpr (.inr ?_)
          simpa using hm
      cases b
      · obtain ⟨h0, h1, h2⟩ := hF rfl
        simp only [Bool.false_eq_true, if_false] at hr
        subst hr
        refine .inr (.inl ⟨rfl, ?_, last, (hmem last).mpr (.inr rfl)⟩)
        intro hm
        rcases (hmem 0).mp hm with hm | hm
        · exact (hall 0 hm).1 rfl
        · exact h0 hm.symm
      · have hlast := hT rfl
        simp only [if_true] at hr
        refine .inr (.inr ⟨net', tr₂, hp, hf, hr, (hmem 0).mpr (.inr hlast.symm), ?_⟩)
        intro ret hm
        rcases (hmem ret).mp hm with hm | hm
        · exact .inr (hall ret hm).2
        · exact .inl (hm.trans hlast)

theorem connect_verify_ret (K : Kconfig) (L : Library) (net : Network) (tr : List Event) :
    (connect_verify K L net tr).ret =
      if net.tlsConnectParams.ServerVerificationFlag = true ∧ L.ssl_get_verify_result ≠ 0
      then .SSL_CONNECTION_ERROR else .SUCCESS := by
  unfold connect_verify
  simp only
  split_ifs <;> simp_all

/-- The handshake loop completes on a script of steps that want to read or write
followed by a step that gives 0. -/
theorem handshake_loop_completes (E : Codes) (rets rest : List Int)
    (hrets : ∀ x ∈ rets, x = E.MBEDTLS_ERR_SSL_WANT_READ ∨ x = E.MBEDTLS_ERR_SSL_WANT_WRITE) :
    ∀ tr, handshake_loop E (rets ++ 0 :: rest) tr =
      some (true, tr ++ (rets ++ [0]).map Event.ssl_handshake) := by
  induction rets with
  | nil => intro tr; simp [handshake_loop]
  | cons x rets ih =>
    intro tr
    have hx := hrets x (List.mem_cons_self _ _)
    have hx0 : x ≠ 0 := by
      rcases hx with h | h
      · have := E.want_read_neg; omega
      · have := E.want_write_neg; omega
    have hnt : ¬ (x ≠ E.MBEDTLS_ERR_SSL_WANT_READ ∧ x ≠ E.MBEDTLS_ERR_SSL_WANT_WRITE) := by
      rintro ⟨h1, h2⟩
      rcases hx with h | h
      · exact h1 h
      · exact h2 h
    rw [List.cons_append, handshake_loop, if_pos hx0, if_neg hnt,
      ih (fun y hy => hrets y (List.mem_cons_of_mem _ hy))]
    simp

theorem connect_ssl_setup_ok (K : Kconfig) (E : Codes) (L : Library) (net : Network)
    (tr : List Event) (h1 : L.ssl_setup = 0)
    (h2 : L.ssl_set_hostname net.tlsConnectParams.pDestinationURL = 0) :
    ∃ tr', connect_ssl_setup K E L net tr = connect_handshake K E L net tr' := by
  unfold connect_ssl_setup
  simp only [h1, h2, ne_eq, not_true_eq_false, if_false]
  exact ⟨_, rfl⟩

theorem connect_setup_ok (K : Kconfig) (E : Codes) (L : Library) (net : Network)
    (tr : List Event)
    (h : K.CONFIG_MBEDTLS_SSL_ALPN = true ∧ net.tlsConnectParams.DestinationPort = 443 →
      L.ssl_conf_alpn_protocols = 0) :
    ∃ net' tr', net'.tlsConnectParams = net.tlsConnectParams ∧
      net'.tlsDataParams.flags = net.tlsDataParams.flags ∧
      connect_setup K E L net tr = connect_ssl_setup K E L net' tr' := by
  unfold connect_setup
  simp only
  by_cases ha : K.CONFIG_MBEDTLS_SSL_ALPN = true ∧ net.tlsConnectParams.DestinationPort = 443
  · rw [if_pos ha]
    simp only [h ha, ne_eq, not_true_eq_false, if_false]
    exact ⟨_, _, by rfl, by rfl, rfl⟩
  · rw [if_neg ha]
    exact ⟨_, _, by rfl, by rfl, rfl⟩

theorem connect_configure_ok (K : Kconfig) (E : Codes) (L : Library) (net : Network)
    (tr : List Event) (h1 : L.ssl_config_defaults = 0) (h2 : L.ssl_conf_own_cert = 0) :
    ∃ net' tr', net'.tlsConnectParams = net.tlsConnectParams ∧
      net'.tlsDataParams.flags = net.tlsDataParams.flags ∧
      connect_configure K E L net tr = connect_setup K E L net' tr' := by
  unfold connect_configure
  simp only [h1, h2, ne_eq, not_true_eq_false, if_false]
  exact ⟨_, _, by rfl, by rfl, rfl⟩

theorem connect_session_ok (K : Kconfig) (E : Codes) (L : Library) (net : Network)
    (tr : List Event)
    (h1 : L.net_connect net.tlsConnectParams.pDestinationURL
      net.tlsConnectParams.DestinationPort = 0)
    (h2 : L.net_set_block = 0) :
    ∃ tr', connect_session K E L net tr = connect_configure K E L net tr' := by
  unfold connect_session
  simp only [h1, h2, ne_eq, not_true_eq_false, if_false]
  exact ⟨_, rfl⟩

/-- When every step before the handshake loop succeeds and the handshake steps want
to read or write until one gives 0, `iot_tls_connect` returns what the part after the
handshake loop gives, on the connection parameters of the call and with the stored
verification flags of entry, and the trace has the handshake step that gave 0. -/
theorem iot_tls_connect_reaches_verify (K : Kconfig) (E : Codes) (L : Library)
    (net : Network) (params : Option TLSConnectParams) (rets rest : List Int)
    (hpre : PreHandshakeOk K E L (connect_entry net params).tlsConnectParams)
    (hs : L.ssl_handshake = rets ++ 0 :: rest)
    (hrets : ∀ x ∈ rets, x = E.MBEDTLS_ERR_SSL_WANT_READ ∨ x = E.MBEDTLS_ERR_SSL_WANT_WRITE) :
    ∃ net' tr, net'.tlsConnectParams = (connect_entry net params).tlsConnectParams ∧
      net'.tlsDataParams.flags = net.tlsDataParams.flags ∧
      Event.ssl_handshake 0 ∈ tr ∧
      iot_tls_connect K E L (some net) params = some (connect_verify K L net' tr) := by
  obtain ⟨h1, h2, h3, h4, h5, h6, h7, h8, h9, h10, h11⟩ := hpre
  rw [iot_tls_connect_credentials]
  simp only [h1, ne_eq, not_true_eq_false, if_false, h2, h3, h4]
  obtain ⟨tr₁, e₁⟩ := connect_session_ok K E L (connect_entry net params)
    ([Event.ctr_drbg_seed 0] ++
      (load_root_ca L (connect_entry net params).tlsConnectParams.pRootCALocation).2 ++
      (load_client_cert K L (connect_entry net params).tlsConnectParams.pDeviceCertLocation).2 ++
      (parse_private_key K E L
        (connect_entry net params).tlsConnectParams.pDevicePrivateKeyLocation).2) h5 h6
  obtain ⟨net₂, tr₂, hp₂, hf₂, e₂⟩ :=
    connect_configure_ok K E L (connect_entry net params) tr₁ h7 h8
  obtain ⟨net₃, tr₃, hp₃, hf₃, e₃⟩ :=
    connect_setup_ok K E L net₂ tr₂ (by rw [hp₂]; exact h9)
  obtain ⟨tr₄, e₄⟩ :=
    connect_ssl_setup_ok K E L net₃ tr₃ h10 (by rw [hp₃, hp₂]; exact h11)
  refine ⟨net₃, tr₄ ++ (rets ++ [0]).map Event.ssl_handshake, hp₃.trans hp₂,
    (hf₃.trans hf₂), by simp, ?_⟩
  rw [e₁, e₂, e₃, e₄]
  unfold connect_handshake
  rw [hs, handshake_loop_completes E rets rest hrets]

/-- C8: when every step of `iot_tls_connect` before the handshake loop succeeds and
the handshake steps want to read or write until one gives 0, `iot_tls_connect`
returns, with that handshake step in its trace, and it returns `SUCCESS` exactly when
server verification is off or the verification result is 0: with verification off it
returns `SUCCESS` whatever the verification result is, and with verification on it
fails for every result other than 0.  The same holds of every result that
`iot_tls_connect` returns with a handshake step that gave 0 in its trace. -/
theorem connect_success_iff_verified (K : Kconfig) (E : Codes) (L : Library) (net : Network)
    (params : Option TLSConnectParams) :
    (∀ rets rest : List Int,
      PreHandshakeOk K E L (connect_entry net params).tlsConnectParams →
      L.ssl_handshake = rets ++ 0 :: rest →
      (∀ x ∈ rets, x = E.MBEDTLS_ERR_SSL_WANT_READ ∨ x = E.MBEDTLS_ERR_SSL_WANT_WRITE) →
      ∃ r, iot_tls_connect K E L (some net) params = some r ∧
        Event.ssl_handshake 0 ∈ r.trace ∧
        (r.ret = .SUCCESS ↔
          (connect_entry net params).tlsConnectParams.ServerVerificationFlag = false ∨
            L.ssl_get_verify_result = 0) ∧
        ((connect_entry net params).tlsConnectParams.ServerVerificationFlag = false →
          r.ret = .SUCCESS) ∧
        ((connect_entry net params).tlsConnectParams.ServerVerificationFlag = true →
          L.ssl_get_verify_result ≠ 0 → r.ret ≠ .SUCCESS)) ∧
    (∀ r, iot_tls_connect K E L (some net) params = some r →
      Event.ssl_handshake 0 ∈ r.trace →
      (r.ret = .SUCCESS ↔
        (connect_entry net params).tlsConnectParams.ServerVerificationFlag = false ∨
          L.ssl_get_verify_result = 0) ∧
      ((connect_entry net params).tlsConnectParams.ServerVerificationFlag = false →
        r.ret = .SUCCESS) ∧
      ((connect_entry net params).tlsConnectParams.ServerVerificationFlag = true →
        L.ssl_get_verify_result ≠ 0 → r.ret ≠ .SUCCESS)) := by
  have key : ∀ (net' : Network) (tr : List Event),
      net'.tlsConnectParams = (connect_entry net params).tlsConnectParams →
      ((connect_verify K L net' tr).ret = .SUCCESS ↔
        (connect_entry net params).tlsConnectParams.ServerVerificationFlag = false ∨
          L.ssl_get_verify_result = 0) ∧
      ((connect_entry net params).tlsConnectParams.ServerVerificationFlag = false →
        (connect_verify K L net' tr).ret = .SUCCESS) ∧
      ((connect_entry net params).tlsConnectParams.ServerVerificationFlag = true →
        L.ssl_get_verify_result ≠ 0 → (connect_verify K L net' tr).ret ≠ .SUCCESS) := by
    intro net' tr hp
    rw [connect_verify_ret, hp]
    cases (connect_entry net params).tlsConnectParams.ServerVerificationFlag <;>
      by_cases hz : L.ssl_get_verify_result = 0 <;> simp [hz]
  constructor
  · intro rets rest hpre hs hrets
    obtain ⟨net', tr, hp, _, hmem, hrun⟩ :=
      iot_tls_connect_reaches_verify K E L net params rets rest hpre hs hrets
    exact ⟨_, hrun, (connect_verify_handshake_mem K L net' tr 0).mpr hmem, key net' tr hp⟩
  · intro r h hdone
    rcases iot_tls_connect_cases K E L net params r h with
      ⟨_, hno⟩ | ⟨_, hno, _⟩ | ⟨net', tr, hp, _, hr, _, _⟩
    · exact absurd hdone (hno 0)
    · exact absurd hdone hno
    · subst hr
      exact key net' tr hp

theorem connect_success_iff_verified_witness :
    (iot_tls_connect demo_build mbedtls (demo_library 0) (some demo_network) none =
        some run_connect_verified ∧ run_connect_verified.ret = .SUCCESS) ∧
    (iot_tls_connect demo_build mbedtls (demo_library 8) (some demo_network)
        (some unverified_params) = some run_connect_skipped ∧
      run_connect_skipped.ret = .SUCCESS) ∧
    (iot_tls_connect demo_build mbedtls (demo_library 8) (some demo_network) none =
        some run_connect_unverified ∧ run_connect_unverified.ret ≠ .SUCCESS) ∧
    PreHandshakeOk demo_build mbedtls (demo_library 0)
      (connect_entry demo_network none).tlsConnectParams ∧
    (demo_library 0).ssl_handshake = [-0x6900] ++ 0 :: [] ∧
    ∃ r, iot_tls_connect demo_build mbedtls (demo_library 0) (some demo_network) none =
        some r ∧
      Event.ssl_handshake 0 ∈ r.trace ∧
      (r.ret = .SUCCESS ↔
        (connect_entry demo_network none).tlsConnectParams.ServerVerificationFlag = false ∨
          (demo_library 0).ssl_get_verify_result = 0) ∧
      ((connect_entry demo_network none).tlsConnectParams.ServerVerificationFlag = false →
        r.ret = .SUCCESS) ∧
      ((connect_entry demo_network none).tlsConnectParams.ServerVerificationFlag = true →
        (demo_library 0).ssl_get_verify_result ≠ 0 → r.ret ≠ .SUCCESS) :=
  ⟨⟨run_connect_verified_eq,
    ((connect_success_iff_verified demo_build mbedtls (demo_library 0) demo_network none).2
      run_connect_verified run_connect_verified_eq (by decide)).1.mpr (.inr rfl)⟩,
   ⟨run_connect_skipped_eq,
    ((connect_success_iff_verified demo_build mbedtls (demo_library 8) demo_network
      (some unverified_params)).2 run_connect_skipped run_connect_skipped_eq
      (by decide)).2.1 rfl⟩,
   ⟨run_connect_unverified_eq,
    ((connect_success_iff_verified demo_build mbedtls (demo_library 8) demo_network none).2
      run_connect_unverified run_connect_unverified_eq (by decide)).2.2 rfl (by decide)⟩,
   demo_pre_handshake_ok 0 _, rfl,
   (connect_success_iff_verified demo_build mbedtls (demo_library 0) demo_network none).1
     [-0x6900] [] (demo_pre_handshake_ok 0 _) rfl (by decide)⟩

/-- C11: when, at a loop state that a write passes through, `mbedtls_ssl_write` gives
a negative result that is neither "want read" nor "want write", `iot_tls_write`
returns `NETWORK_SSL_WRITE_ERROR` at once, whatever was sent before: the rest of the
script of `mbedtls_ssl_write` is left unconsumed and the trace ends with that attempt
(no further attempt), the script of the retry timer is left as it was (the timer is
not read), and nothing is stored through `written_len`. -/
theorem iot_tls_write_error_at_once (E : Codes) (len : Nat) (sends : List Int)
    (expiries : List Bool) (s : WriteState) (ret : Int) (rest : List Int)
    (hreach : WriteReach E (write_init len sends expiries) s) (hpos : 0 < s.len)
    (hsend : s.sends = ret :: rest) (hneg : ret < 0)
    (hnt : ret ≠ E.MBEDTLS_ERR_SSL_WANT_READ ∧ ret ≠ E.MBEDTLS_ERR_SSL_WANT_WRITE) :
    iot_tls_write E len sends expiries = some
      { ret := .NETWORK_SSL_WRITE_ERROR, written_len := none, sends := rest,
        expiries := s.expiries,
        trace := s.trace ++ [Event.ssl_write s.pMsg s.len ret] } := by
  have hl := write_reach_loop E hreach
  have hinit : (write_init len sends expiries).sends.length = sends.length := rfl
  rw [hinit] at hl
  have hnp : ¬ 0 < ret := by omega
  unfold iot_tls_write
  rw [← hl, write_loop]
  simp [hpos, write_body, hsend, hnp, hnt.1, hnt.2, WriteState.returns]

theorem iot_tls_write_error_at_once_witness :
    WriteReach mbedtls (write_init 10000 [4000, -0x6880, -0x7880, 5] [false, true])
      broken_write ∧
    iot_tls_write mbedtls 10000 [4000, -0x6880, -0x7880, 5] [false, true] = some
      { ret := .NETWORK_SSL_WRITE_ERROR, written_len := none, sends := [5],
        expiries := broken_write.expiries,
        trace := broken_write.trace ++
          [Event.ssl_write broken_write.pMsg broken_write.len (-0x7880)] } :=
  ⟨.step (.step .start (by decide) rfl) (by decide) rfl,
   iot_tls_write_error_at_once mbedtls 10000 [4000, -0x6880, -0x7880, 5] [false, true]
     broken_write (-0x7880) [5] (.step (.step .start (by decide) rfl) (by decide) rfl)
     (by decide) rfl (by decide) (by decide)⟩

theorem run_write_broken_eq :
    iot_tls_write mbedtls 10 [4, -1] [] = some run_write_broken := rfl

theorem run_read_broken_eq :
    iot_tls_read mbedtls demo_conf 5 [2, -1] [7, 7, 0, 0] [true] = some run_read_broken := rfl

/-- What a pass through the body of the loop of `iot_tls_write` that returns has
stored: nothing with `NETWORK_SSL_WRITE_ERROR`, a count with
`NETWORK_SSL_WRITE_TIMEOUT_ERROR`. -/
theorem write_body_done_stored (E : Codes) {s : WriteState} {r : WriteResult}
    (h : write_body E s = .done r) :
    (r.ret = .NETWORK_SSL_WRITE_ERROR ∧ r.written_len = none) ∨
    (r.ret = .NETWORK_SSL_WRITE_TIMEOUT_ERROR ∧ ∃ n, r.written_len = some n) := by
  rcases write_body_cases E s with ⟨_, hb⟩ | ⟨ret, sends, _, hc⟩
  · rw [hb] at h; cases h
  · rcases hc with ⟨_, _, hb⟩ | ⟨_, _, hb⟩ | ⟨_, _, _, hb⟩ | ⟨_, _, _, _, hb⟩ |
      ⟨_, _, _, _, hb⟩ | ⟨_, _, hb⟩ <;> rw [hb] at h <;> cases h
    · exact .inl ⟨rfl, rfl⟩
    · exact .inr ⟨rfl, _, rfl⟩
    · exact .inl ⟨rfl, rfl⟩

theorem write_loop_stored (E : Codes) :
    ∀ (fuel : Nat) (s : WriteState) (r : WriteResult), write_loop E fuel s = some r →
      (r.ret = .NETWORK_SSL_WRITE_ERROR ∧ r.written_len = none) ∨
      ((r.ret = .SUCCESS ∨ r.ret = .NETWORK_SSL_WRITE_TIMEOUT_ERROR) ∧
        ∃ n, r.written_len = some n) := by
  intro fuel
  induction fuel with
  | zero => intro s r h; simp [write_loop] at h
  | succ n ih =>
    intro s r h
    by_cases hpos : 0 < s.len
    · simp only [write_loop, hpos, if_true] at h
      rcases hb : write_body E s with s' | r' | _
      · rw [hb] at h
        exact ih s' r h
      · rw [hb] at h
        cases h
        rcases write_body_done_stored E hb with h1 | ⟨h1, h2⟩
        · exact .inl h1
        · exact .inr ⟨.inr h1, h2⟩
      · rw [hb] at h; cases h
    · simp only [write_loop, hpos, if_false] at h
      cases h
      exact .inr ⟨.inl rfl, _, rfl⟩

/-- What a pass through the body of the loop of `iot_tls_read` that returns has
stored: nothing with `NETWORK_SSL_READ_ERROR` and with the `NETWORK_SSL_WRITE_ERROR`
of an overrun, a count with the two returns on expiry of the retry timer. -/
theorem read_body_done_stored (E : Codes) {s : ReadState} {r : ReadResult}
    (h : read_body E s = .done r) :
    ((r.ret = .NETWORK_SSL_READ_ERROR ∨ r.ret = .NETWORK_SSL_WRITE_ERROR) ∧
      r.read_len = none) ∨
    ((r.ret = .NETWORK_SSL_NOTHING_TO_READ ∨ r.ret = .NETWORK_SSL_READ_TIMEOUT_ERROR) ∧
      ∃ n, r.read_len = some n) := by
  rcases read_body_cases E s with ⟨_, hb⟩ | ⟨timeout, lefts, evs, ret, recvs, hd, _, hc⟩
  · rw [hb] at h; cases h
  · rcases hc with ⟨_, _, hb⟩ | ⟨_, _, hb⟩ | ⟨_, _, _, hb⟩ | ⟨_, _, _, _, hb⟩ |
      ⟨_, _, _, _, hb⟩ | ⟨_, _, hb⟩ <;> rw [hb] at h <;> cases h
    · exact .inl ⟨.inr rfl, rfl⟩
    · refine .inr ⟨?_, _, rfl⟩
      by_cases h0 : s.rxLen = 0 <;> simp [h0]
    · exact .inl ⟨.inl rfl, rfl⟩

theorem read_loop_stored (E : Codes) :
    ∀ (fuel : Nat) (s : ReadState) (r : ReadResult), read_loop E fuel s = some r →
      ((r.ret = .NETWORK_SSL_READ_ERROR ∨ r.ret = .NETWORK_SSL_WRITE_ERROR) ∧
        r.read_len = none) ∨
      ((r.ret = .SUCCESS ∨ r.ret = .NETWORK_SSL_NOTHING_TO_READ ∨
          r.ret = .NETWORK_SSL_READ_TIMEOUT_ERROR) ∧ ∃ n, r.read_len = some n) := by
  intro fuel
  induction fuel with
  | zero => intro s r h; simp [read_loop] at h
  | succ n ih =>
    intro s r h
    by_cases hpos : 0 < s.len
    · simp only [read_loop, hpos, if_true] at h
      rcases hb : read_body E s with s' | r' | _
      · rw [hb] at h
        exact ih s' r h
      · rw [hb] at h
        cases h
        rcases read_body_done_stored E hb with h1 | ⟨h1, h2⟩
        · exact .inl h1
        · exact .inr ⟨.inr h1, h2⟩
      · rw [hb] at h; cases h
    · simp only [read_loop, hpos, if_false] at h
      cases h
      exact .inr ⟨.inl rfl, _, rfl⟩

/-- C12: when `iot_tls_write` returns `NETWORK_SSL_WRITE_ERROR` (transport error or
more bytes than requested), or `iot_tls_read` returns `NETWORK_SSL_READ_ERROR` or the
`NETWORK_SSL_WRITE_ERROR` of more bytes than requested, nothing is stored through
`written_len` or `read_len`, so the caller's variable has after the call the content
it had before, whatever was transferred earlier in the call; a count is stored
exactly on `SUCCESS` and on the returns on expiry of the retry timer. -/
theorem fatal_error_leaves_count (E : Codes) :
    (∀ (len : Nat) (sends : List Int) (expiries : List Bool) (r : WriteResult),
      iot_tls_write E len sends expiries = some r →
      (r.ret = .NETWORK_SSL_WRITE_ERROR →
        r.written_len = none ∧ ∀ before, caller_count before r.written_len = before) ∧
      ((∃ n, r.written_len = some n) ↔
        r.ret = .SUCCESS ∨ r.ret = .NETWORK_SSL_WRITE_TIMEOUT_ERROR)) ∧
    (∀ (conf : mbedtls_ssl_config) (len : Nat) (recvs : List Int) (lefts : List Nat)
      (expiries : List Bool) (r : ReadResult),
      iot_tls_read E conf len recvs lefts expiries = some r →
      (r.ret = .NETWORK_SSL_READ_ERROR ∨ r.ret = .NETWORK_SSL_WRITE_ERROR →
        r.read_len = none ∧ ∀ before, caller_count before r.read_len = before) ∧
      ((∃ n, r.read_len = some n) ↔
        r.ret = .SUCCESS ∨ r.ret = .NETWORK_SSL_NOTHING_TO_READ ∨
          r.ret = .NETWORK_SSL_READ_TIMEOUT_ERROR)) := by
  constructor
  · intro len sends expiries r h
    rcases write_loop_stored E _ _ r h with ⟨hr, hw⟩ | ⟨hr, n, hw⟩
    · refine ⟨fun _ => ⟨hw, fun before => by rw [hw]; rfl⟩, ?_⟩
      constructor
      · rintro ⟨n, hn⟩
        rw [hw] at hn; cases hn
      · intro hc
        rw [hr] at hc
        rcases hc with hc | hc <;> cases hc
    · refine ⟨fun he => ?_, fun _ => hr, fun _ => ⟨n, hw⟩⟩
      rw [he] at hr
      rcases hr with hc | hc <;> cases hc
  · intro conf len recvs lefts expiries r h
    rcases read_loop_stored E _ _ r h with ⟨hr, hw⟩ | ⟨hr, n, hw⟩
    · refine ⟨fun _ => ⟨hw, fun before => by rw [hw]; rfl⟩, ?_⟩
      constructor
      · rintro ⟨n, hn⟩
        rw [hw] at hn; cases hn
      · intro hc
        rcases hr with hr | hr <;> rw [hr] at hc <;>
          rcases hc with hc | hc | hc <;> cases hc
    · refine ⟨fun he => ?_, fun _ => hr, fun _ => ⟨n, hw⟩⟩
      rcases he with he | he <;> rw [he] at hr <;>
        rcases hr with hc | hc | hc <;> cases hc

theorem fatal_error_leaves_count_witness :
    (iot_tls_write mbedtls 10 [4, -1] [] = some run_write_broken ∧
      run_write_broken.ret = .NETWORK_SSL_WRITE_ERROR ∧
      run_write_broken.written_len = none ∧
      caller_count 77 run_write_broken.written_len = 77) ∧
    (iot_tls_read mbedtls demo_conf 5 [2, -1] [7, 7, 0, 0] [true] = some run_read_broken ∧
      run_read_broken.ret = .NETWORK_SSL_READ_ERROR ∧
      run_read_broken.read_len = none ∧
      caller_count 77 run_read_broken.read_len = 77) :=
  ⟨⟨run_write_broken_eq, rfl,
    (((fatal_error_leaves_count mbedtls).1 10 [4, -1] [] run_write_broken
      run_write_broken_eq).1 rfl).1,
    (((fatal_error_leaves_count mbedtls).1 10 [4, -1] [] run_write_broken
      run_write_broken_eq).1 rfl).2 77⟩,
   ⟨run_read_broken_eq, rfl,
    (((fatal_error_leaves_count mbedtls).2 demo_conf 5 [2, -1] [7, 7, 0, 0] [true]
      run_read_broken run_read_broken_eq).1 (.inl rfl)).1,
    (((fatal_error_leaves_count mbedtls).2 demo_conf 5 [2, -1] [7, 7, 0, 0] [true]
      run_read_broken run_read_broken_eq).1 (.inl rfl)).2 77⟩⟩

end AwsIotTls
